import Mathlib

/-!
Shallow embedding of the core of the HMS (Healthcare Management System)
backend: the billing ledger, the appointment status services, the
notification store/dispatcher, and the websocket connection registry.
Each definition is translated from the corresponding TypeScript source
function; the theorems at the end of the file settle the specification
claims about them.

Conventions used throughout the embedding:
* JavaScript numbers that carry money or quantities are modelled as exact
  rationals (`ℚ`); timestamps (`Date.getTime()` values) are modelled as
  integers counting milliseconds.
* Prisma tables are modelled as Lean lists of records; `findUnique` /
  `findFirst` become `List.find?`, `create` appends, `update` maps over the
  list, `delete` filters.
* A service function that can `throw` is modelled as returning
  `State × Except String α`: the returned state reflects every write
  performed before the throw, and the `Except` value carries the result or
  the thrown error message.
-/

deriving instance DecidableEq for Except

namespace HMS

/-! ## Connection Registry (websocket.service.ts)

The `WebSocketService` class keeps `connectedUsers : Map<string, string>`
from user id to socket id.  The connection handler stores
`connectedUsers.set(socket.userId, socket.id)`; the disconnect handler
captured by that connection runs `connectedUsers.delete(socket.userId)` —
keyed only by the user id, ignoring which socket actually disconnected.
We model the JS `Map` as an association list with `set` semantics
(overwrite in place if the key is present, append otherwise). -/

namespace Registry

/-- `connectedUsers.set(userId, socketId)` (JS `Map.set`). -/
def setUser (m : List (String × String)) (userId socketId : String) :
    List (String × String) :=
  if m.any (fun e => e.1 == userId) then
    m.map (fun e => if e.1 == userId then (userId, socketId) else e)
  else
    m ++ [(userId, socketId)]

/-- `connectedUsers.delete(userId)` (JS `Map.delete`). -/
def deleteUser (m : List (String × String)) (userId : String) :
    List (String × String) :=
  m.filter (fun e => !(e.1 == userId))

/-- The `connection` handler body: `this.connectedUsers.set(socket.userId, socket.id)`. -/
def handleConnection (m : List (String × String)) (userId socketId : String) :
    List (String × String) :=
  setUser m userId socketId

/-- The `disconnect` handler body registered by a connection for user
`userId` on socket `socketId`:
`if (socket.userId) this.connectedUsers.delete(socket.userId)`.
The socket id is deliberately unused, exactly as in the source closure. -/
def handleDisconnect (m : List (String × String)) (userId : String)
    (_socketId : String) : List (String × String) :=
  deleteUser m userId

/-- `isUserConnected(userId)`: `this.connectedUsers.has(userId)`. -/
def isUserConnected (m : List (String × String)) (userId : String) : Bool :=
  m.any (fun e => e.1 == userId)

/-- `connectedUsers.get(userId)` — which socket the registry currently maps
the user to. -/
def lookupSocket (m : List (String × String)) (userId : String) :
    Option String :=
  (m.find? (fun e => e.1 == userId)).map (fun e => e.2)

end Registry

/-! ## Ledger Engine (billing services in doctor.service.ts)

The billing functions operate on the Prisma tables `appointment`,
`services`, `payment` and `patientBills`, plus the `notification` table
written by `createNotification`.  The records carry exactly the fields the
billing code reads or writes. -/

namespace Billing

/-- A row of the `services` catalog (id and current price; the name is
irrelevant to the billing logic). -/
structure Service where
  id : Nat
  price : ℚ
deriving DecidableEq, Repr

/-- A row of `patientBills`: one bill line of an invoice.  `bill_id` is the
owning payment's id; `unit_cost` is the price snapshot taken at creation. -/
structure PatientBill where
  id : Nat
  bill_id : Nat
  service_id : Nat
  service_date : Int
  quantity : ℚ
  unit_cost : ℚ
  total_cost : ℚ
deriving DecidableEq, Repr

/-- A row of `payment`: the per-appointment invoice aggregate. -/
structure Payment where
  id : Nat
  appointment_id : Nat
  patient_id : String
  bill_date : Int
  payment_date : Int
  discount : ℚ
  total_amount : ℚ
  amount_paid : ℚ
  payment_method : String
  status : String
  finalized : Bool
deriving DecidableEq, Repr

/-- The slice of an `appointment` row the billing code reads. -/
structure BillAppointment where
  id : Nat
  patient_id : String
deriving DecidableEq, Repr

/-- The slice of a `patient` row the billing code reads
(`user_id` may be absent, mirroring the JS truthiness guard). -/
structure BillPatient where
  id : String
  user_id : Option String
deriving DecidableEq, Repr

/-- A persisted notification row, as written by `createNotification`
(content only; ids/timestamps are settled in the notification model). -/
structure BillNotif where
  userId : String
  title : String
  message : String
  link : Option String
deriving DecidableEq, Repr

/-- The database state the billing services read and write. -/
structure BillingDB where
  appointments : List BillAppointment
  patients : List BillPatient
  services : List Service
  payments : List Payment
  bills : List PatientBill
  notifications : List BillNotif
  nextPaymentId : Nat
  nextBillId : Nat
deriving DecidableEq, Repr

/-- `prisma.payment.findUnique({ where: { appointment_id } })`. -/
def findPaymentByAppt (db : BillingDB) (appointmentId : Nat) : Option Payment :=
  db.payments.find? (fun p => p.appointment_id == appointmentId)

/-- `prisma.payment.findUnique({ where: { id } })`. -/
def findPaymentById (db : BillingDB) (paymentId : Nat) : Option Payment :=
  db.payments.find? (fun p => p.id == paymentId)

/-- The bill lines currently belonging to payment `paymentId`
(`payment.bills` under Prisma's `include: { bills: true }`). -/
def billsOf (db : BillingDB) (paymentId : Nat) : List PatientBill :=
  db.bills.filter (fun b => b.bill_id == paymentId)

/-- `payment.bills.reduce((sum, bill) => sum + bill.total_cost, 0)`. -/
def sumBillCosts (db : BillingDB) (paymentId : Nat) : ℚ :=
  ((billsOf db paymentId).map (fun b => b.total_cost)).sum

/-- `recalculatePaymentSummary(paymentId)`: re-reads the payment with its
bills, recomputes the total and writes back only `total_amount`; returns
the state unchanged when the payment does not exist. -/
def recalculatePaymentSummary (db : BillingDB) (paymentId : Nat) : BillingDB :=
  match db.payments.find? (fun p => p.id == paymentId) with
  | none => db
  | some _ =>
    { db with payments := db.payments.map (fun p =>
        if p.id == paymentId then
          { p with total_amount := sumBillCosts db paymentId }
        else p) }

/-- The `createNotification` call made from the billing services: persists
one notification row (delivery is handled by the dispatcher model). -/
def appendNotif (db : BillingDB) (userId title message : String)
    (link : Option String) : BillingDB :=
  { db with notifications := db.notifications ++ [⟨userId, title, message, link⟩] }

/-- The empty payment row lazily created by `addBillToAppointment` when the
appointment has no invoice yet. -/
def emptyPayment (db : BillingDB) (appointmentId : Nat) (patient_id : String)
    (now : Int) : Payment :=
  { id := db.nextPaymentId
    appointment_id := appointmentId
    patient_id := patient_id
    bill_date := now
    payment_date := now
    discount := 0
    total_amount := 0
    amount_paid := 0
    payment_method := "CASH"
    status := "UNPAID"
    finalized := false }

/-- `prisma.payment.create` for the lazily-created invoice. -/
def createEmptyPayment (db : BillingDB) (appointmentId : Nat)
    (patient_id : String) (now : Int) : BillingDB :=
  { db with
    payments := db.payments ++ [emptyPayment db appointmentId patient_id now]
    nextPaymentId := db.nextPaymentId + 1 }

/-- The `createNotification` call at the end of `addBillToAppointment`:
`if (patient && patient.user_id) await createNotification(...)`. -/
def notifyBillAdded (db : BillingDB) (patient_id : String) : BillingDB :=
  match db.patients.find? (fun p => p.id == patient_id) with
  | some patient =>
    match patient.user_id with
    | some uid =>
      appendNotif db uid "New Bill Generated"
        "A new bill has been generated for your appointment."
        (some "/appointments")
    | none => db
  | none => db

/-- The new bill row created by `addBillToAppointment` with the service
price snapshot (`unit_cost`) and `total_cost = service.price * quantity`. -/
def newBillRow (db1 : BillingDB) (payment : Payment) (service : Service)
    (service_id : Nat) (quantity : ℚ) (service_date : Int) : PatientBill :=
  { id := db1.nextBillId
    bill_id := payment.id
    service_id := service_id
    service_date := service_date
    quantity := quantity
    unit_cost := service.price
    total_cost := service.price * quantity }

/-- `addBillToAppointment(appointmentId, { service_id, quantity,
service_date })`.  `now` models `new Date()` at the lazily-created
payment's `bill_date`/`payment_date`. -/
def addBillToAppointment (db : BillingDB) (appointmentId : Nat)
    (service_id : Nat) (quantity : ℚ) (service_date : Int) (now : Int) :
    BillingDB × Except String PatientBill :=
  match db.appointments.find? (fun a => a.id == appointmentId) with
  | none => (db, .error "Appointment not found")
  | some billAppointment =>
    -- find-or-create the payment, then re-fetch it as the source does
    let db1 : BillingDB :=
      match findPaymentByAppt db appointmentId with
      | some _ => db
      | none => createEmptyPayment db appointmentId billAppointment.patient_id now
    match findPaymentByAppt db1 appointmentId with
    | none => (db1, .error "Payment not found")
    | some payment =>
      -- Allow adding bills even if finalized
      match db1.services.find? (fun s => s.id == service_id) with
      | none => (db1, .error "Service not found")
      | some service =>
        let bill := newBillRow db1 payment service service_id quantity service_date
        let db2 : BillingDB :=
          { db1 with bills := db1.bills ++ [bill], nextBillId := db1.nextBillId + 1 }
        (notifyBillAdded (recalculatePaymentSummary db2 payment.id)
          billAppointment.patient_id, .ok bill)

/-- `deleteBillFromAppointment(appointmentId, billId)`.  Prisma's `delete`
throws when the row is absent; we surface that as an error. -/
def deleteBillFromAppointment (db : BillingDB) (appointmentId billId : Nat) :
    BillingDB × Except String Bool :=
  match findPaymentByAppt db appointmentId with
  | none => (db, .error "Payment not found")
  | some payment =>
    -- Allow deleting bills even if finalized
    match db.bills.find? (fun b => b.id == billId) with
    | none => (db, .error "Record to delete does not exist")
    | some _ =>
      let db1 : BillingDB :=
        { db with bills := db.bills.filter (fun b => !(b.id == billId)) }
      (recalculatePaymentSummary db1 payment.id, .ok true)

/-- The optional fields of an `editBillInAppointment` request body.  A JS
argument equal to `undefined` is `none`; note the source tests these with
plain truthiness, so a present-but-zero `quantity` is also treated as
absent (mirrored below). -/
structure EditBillData where
  service_id : Option Nat
  quantity : Option ℚ
  service_date : Option Int
deriving DecidableEq, Repr

/-- The `updateData` object accumulated by `editBillInAppointment`. -/
structure BillUpdate where
  service_id : Option Nat
  quantity : Option ℚ
  unit_cost : Option ℚ
  total_cost : Option ℚ
  service_date : Option Int
deriving DecidableEq, Repr

/-- Builds `updateData` exactly as the source does, given the looked-up
service when `data.service_id` was present.  The `q == 0` and `uc == 0`
tests mirror JS truthiness on numbers (`if (data.quantity)`,
`if (updateData.unit_cost)`). -/
def buildBillUpdate (bill : PatientBill) (data : EditBillData)
    (svc : Option Service) : BillUpdate :=
  let ud0 : BillUpdate :=
    match data.service_id, svc with
    | some sid, some s =>
      { service_id := some sid
        quantity := none
        unit_cost := some s.price
        total_cost := some (s.price * (data.quantity.getD bill.quantity))
        service_date := none }
    | _, _ =>
      { service_id := none, quantity := none, unit_cost := none
        total_cost := none, service_date := none }
  let ud1 : BillUpdate :=
    match data.quantity with
    | some q =>
      if q == 0 then ud0
      else
        { ud0 with
          quantity := some q
          total_cost := some
            ((match ud0.unit_cost with
              | some uc => if uc == 0 then bill.unit_cost else uc
              | none => bill.unit_cost) * q) }
    | none => ud0
  match data.service_date with
  | some d => { ud1 with service_date := some d }
  | none => ud1

/-- Applies a `BillUpdate` to a bill row (Prisma leaves absent fields
unchanged). -/
def applyBillUpdate (bill : PatientBill) (ud : BillUpdate) : PatientBill :=
  { bill with
    service_id := ud.service_id.getD bill.service_id
    quantity := ud.quantity.getD bill.quantity
    unit_cost := ud.unit_cost.getD bill.unit_cost
    total_cost := ud.total_cost.getD bill.total_cost
    service_date := ud.service_date.getD bill.service_date }

/-- The tail of `editBillInAppointment` shared by both service branches:
update the bill row, then recalculate the payment summary. -/
def finishBillEdit (db : BillingDB) (payment : Payment) (bill : PatientBill)
    (data : EditBillData) (svc : Option Service) :
    BillingDB × Except String PatientBill :=
  let updatedBill := applyBillUpdate bill (buildBillUpdate bill data svc)
  let db1 : BillingDB :=
    { db with bills := db.bills.map (fun b =>
        if b.id == bill.id then updatedBill else b) }
  (recalculatePaymentSummary db1 payment.id, .ok updatedBill)

/-- `editBillInAppointment(appointmentId, billId, data)`. -/
def editBillInAppointment (db : BillingDB) (appointmentId billId : Nat)
    (data : EditBillData) : BillingDB × Except String PatientBill :=
  match findPaymentByAppt db appointmentId with
  | none => (db, .error "Payment not found")
  | some payment =>
    match db.bills.find? (fun b => b.id == billId) with
    | none => (db, .error "Bill not found")
    | some bill =>
      match data.service_id with
      | some sid =>
        match db.services.find? (fun s => s.id == sid) with
        | none => (db, .error "Service not found")
        | some service => finishBillEdit db payment bill data (some service)
      | none => finishBillEdit db payment bill data none

/-- `editFinalBillSummary(appointmentId, { discount, bill_date })`: allowed
even after finalize; updates only the summary fields then recalculates.
The source tests `data.discount !== undefined` (so `0` is applied) but
plain truthiness on `bill_date`. -/
def editFinalBillSummary (db : BillingDB) (appointmentId : Nat)
    (discount : Option ℚ) (bill_date : Option Int) :
    BillingDB × Except String Payment :=
  match findPaymentByAppt db appointmentId with
  | none => (db, .error "Payment not found")
  | some payment =>
    let db1 : BillingDB :=
      { db with payments := db.payments.map (fun p =>
          if p.id == payment.id then
            { p with
              discount := discount.getD p.discount
              bill_date := bill_date.getD p.bill_date }
          else p) }
    let db2 := recalculatePaymentSummary db1 payment.id
    match findPaymentById db2 payment.id with
    | some updatedWithBills => (db2, .ok updatedWithBills)
    | none => (db2, .error "Payment not found")

/-- The value returned by `generateFinalBillForAppointment`: the updated
payment spread together with the presentation-only `payable` and
`discountAmount` figures. -/
structure FinalBillResult where
  payment : Payment
  payable : ℚ
  discountAmount : ℚ
deriving DecidableEq, Repr

/-- `generateFinalBillForAppointment(appointmentId, { discount, bill_date })`. -/
def generateFinalBillForAppointment (db : BillingDB) (appointmentId : Nat)
    (discount : ℚ) (bill_date : Int) :
    BillingDB × Except String FinalBillResult :=
  match findPaymentByAppt db appointmentId with
  | none => (db, .error "No bills to generate final bill")
  | some payment =>
    let total := sumBillCosts db payment.id
    let discountAmount := (total * discount) / 100
    let payable := total - discountAmount
    let updated : Payment :=
      { payment with
        discount := discount
        total_amount := total
        bill_date := bill_date
        finalized := true }
    let db1 : BillingDB :=
      { db with payments := db.payments.map (fun p =>
          if p.id == payment.id then
            { p with
              discount := discount
              total_amount := total
              bill_date := bill_date
              finalized := true }
          else p) }
    (db1, .ok { payment := updated, payable := payable, discountAmount := discountAmount })

/-- Flips the `finalized` flag of the invoice attached to `appointmentId`
(used to state that line mutations never read that flag). -/
def setFinalizedByAppt (db : BillingDB) (appointmentId : Nat) (b : Bool) :
    BillingDB :=
  { db with payments := db.payments.map (fun p =>
      if p.appointment_id == appointmentId then { p with finalized := b } else p) }

/-- The claimed invariant: the invoice identified by `paymentId` (when
present) has `total_amount` equal to the sum of `total_cost` over its
current bill lines. -/
def TotalInvariant (db : BillingDB) (paymentId : Nat) : Prop :=
  ∀ p, db.payments.find? (fun q => q.id == paymentId) = some p →
    p.total_amount = sumBillCosts db paymentId

/-- A small concrete billing database used by the witnesses: appointment 1
has invoice 7 with two lines (100·1 and 100·2, total 300); service 5 costs
100. -/
def exampleDB : BillingDB :=
  { appointments := [⟨1, "pat1"⟩]
    patients := [⟨"pat1", some "patU"⟩]
    services := [⟨5, 100⟩]
    payments := [⟨7, 1, "pat1", 0, 0, 0, 300, 0, "CASH", "UNPAID", false⟩]
    bills := [⟨21, 7, 5, 0, 1, 100, 100⟩, ⟨22, 7, 5, 0, 2, 100, 200⟩]
    notifications := []
    nextPaymentId := 8
    nextBillId := 23 }

/-- The invoice row of `exampleDB`. -/
def examplePayment : Payment :=
  ⟨7, 1, "pat1", 0, 0, 0, 300, 0, "CASH", "UNPAID", false⟩

/-- State after adding a line (service 5, quantity 2) to appointment 1 of
`exampleDB`. -/
def dbAfterAdd : BillingDB := (addBillToAppointment exampleDB 1 5 2 0 0).1

/-- The bill row created by that addition. -/
def billAfterAdd : PatientBill := ⟨23, 7, 5, 0, 2, 100, 200⟩

/-- State after editing bill 22 of `exampleDB` to quantity 3. -/
def dbAfterEdit : BillingDB :=
  (editBillInAppointment exampleDB 1 22 ⟨none, some 3, none⟩).1

/-- The bill row produced by that edit (total 300 = 100·3). -/
def billAfterEdit : PatientBill := ⟨22, 7, 5, 0, 3, 100, 300⟩

/-- State after deleting bill 22 of `exampleDB`. -/
def dbAfterDelete : BillingDB := (deleteBillFromAppointment exampleDB 1 22).1

/-- State after editing the final summary of appointment 1 of `exampleDB`
to a 10 percent discount. -/
def dbAfterSummary : BillingDB :=
  (editFinalBillSummary exampleDB 1 (some 10) none).1

/-- The payment row returned by that summary edit. -/
def payAfterSummary : Payment :=
  ⟨7, 1, "pat1", 0, 0, 10, 300, 0, "CASH", "UNPAID", false⟩

/-- Two appointments with one invoice each: invoice 7 (appointment 1) has
no lines, invoice 8 (appointment 2) has the single line 30 (100·1) and a
consistent `total_amount = 100`.  Bill ids are globally unique, so a
mutation addressed to appointment 1 can name bill 30: the services find
the bill by id alone, without checking which invoice owns it. -/
def crossDB : BillingDB :=
  { appointments := [⟨1, "pat1"⟩, ⟨2, "pat2"⟩]
    patients := [⟨"pat1", some "patU"⟩, ⟨"pat2", some "patU2"⟩]
    services := [⟨5, 100⟩]
    payments := [⟨7, 1, "pat1", 0, 0, 0, 0, 0, "CASH", "UNPAID", false⟩,
      ⟨8, 2, "pat2", 0, 0, 0, 100, 0, "CASH", "UNPAID", false⟩]
    bills := [⟨30, 8, 5, 0, 1, 100, 100⟩]
    notifications := []
    nextPaymentId := 9
    nextBillId := 31 }

/-- State after editing bill 30 (owned by invoice 8) through appointment
1: the line's `total_cost` becomes 300, but only invoice 7 is
recomputed. -/
def crossDBAfter : BillingDB :=
  (editBillInAppointment crossDB 1 30 ⟨none, some 3, none⟩).1

end Billing

/-! ## Appointment State Machine, Notification Store and Dispatcher

Embeds `createAppointmentService` / `updateAppointmentStatusService`
(appointment.service.ts), `updateDoctorAppointmentStatus`
(doctor.service.ts) and `createNotification` / `getNotifications` /
`markNotificationRead` (notification.service.ts). -/

namespace Appt

/-- The `AppointmentStatus` Prisma enum. -/
inductive AStatus where
  | PENDING
  | SCHEDULED
  | COMPLETED
  | CANCELLED
deriving DecidableEq, Repr

/-- `Object.values(AppointmentStatus).includes(status)` together with the
cast `status as AppointmentStatus`. -/
def parseStatus : String → Option AStatus
  | "PENDING" => some .PENDING
  | "SCHEDULED" => some .SCHEDULED
  | "COMPLETED" => some .COMPLETED
  | "CANCELLED" => some .CANCELLED
  | _ => none

/-- A `user` row (id and role are all the services read). -/
structure User where
  id : String
  role : String
deriving DecidableEq, Repr

/-- The slice of a `patient` row the appointment services read. -/
structure Patient where
  id : String
  user_id : Option String
  first_name : String
  last_name : String
deriving DecidableEq, Repr

/-- The slice of a `doctor` row the appointment services read. -/
structure Doctor where
  id : String
  user_id : Option String
  name : String
deriving DecidableEq, Repr

/-- An `appointment` row.  `atype` is the free-text `type` column. -/
structure Appointment where
  id : Nat
  patient_id : String
  doctor_id : String
  appointment_date : Int
  time : String
  atype : String
  note : Option String
  status : AStatus
  reason : Option String
deriving DecidableEq, Repr

/-- A `notification` row. -/
structure Notification where
  id : Nat
  userId : String
  title : String
  message : String
  link : Option String
  isRead : Bool
  createdAt : Int
deriving DecidableEq, Repr

/-- The database state shared by the appointment and notification
services. -/
structure DB where
  users : List User
  patients : List Patient
  doctors : List Doctor
  appointments : List Appointment
  notifications : List Notification
  nextApptId : Nat
  nextNotifId : Nat
deriving DecidableEq, Repr

/-- Ambient request context: whether `setWebSocketService` was called
(`ws`), `new Date().getTime()` (`nowMs`) and `new Date().getHours()`
(`nowHour`). -/
structure Env where
  ws : Bool
  nowMs : Int
  nowHour : Nat
deriving DecidableEq, Repr

/-- The wire payload handed to `sendNotificationToUser`. -/
structure Payload where
  id : Nat
  title : String
  message : String
  link : Option String
  isRead : Bool
  createdAt : Int
deriving DecidableEq, Repr

/-- The payload is built from the persisted row. -/
def payloadOf (n : Notification) : Payload :=
  ⟨n.id, n.title, n.message, n.link, n.isRead, n.createdAt⟩

/-- The row `prisma.notification.create` writes: `isRead := false`,
`createdAt := new Date()`. -/
def mkNotification (db : DB) (env : Env) (userId title message : String)
    (link : Option String) : Notification :=
  ⟨db.nextNotifId, userId, title, message, link, false, env.nowMs⟩

/-- `createNotification(data)`: persists the row first, then — only if the
WebSocket service instance is set — emits the live payload built from the
persisted row.  It never throws: the returned payload list is empty when
no delivery channel exists. -/
def createNotification (env : Env) (db : DB) (userId title message : String)
    (link : Option String) : DB × Notification × List Payload :=
  let n := mkNotification db env userId title message link
  ({ db with notifications := db.notifications ++ [n],
             nextNotifId := db.nextNotifId + 1 },
   n,
   if env.ws then [payloadOf n] else [])

/-- `getNotifications(userId, unread)`: the user's rows, newest first.
Rows are appended in creation order with non-decreasing `createdAt`, so
`orderBy: { createdAt: 'desc' }` is the reverse of insertion order. -/
def getNotifications (db : DB) (userId : String) (unread : Bool) :
    List Notification :=
  (db.notifications.filter (fun n =>
    if unread then n.userId == userId && n.isRead == false
    else n.userId == userId)).reverse

/-- `markNotificationRead(id)`: `prisma.notification.update` throws when
the row is missing and otherwise sets `isRead := true`. -/
def markNotificationRead (db : DB) (id : Nat) : DB × Except String Notification :=
  match db.notifications.find? (fun n => n.id == id) with
  | none => (db, .error "Record not found")
  | some n =>
    ({ db with notifications := db.notifications.map (fun m =>
        if m.id == id then { m with isRead := true } else m) },
     .ok { n with isRead := true })

/-- Stands in for `toLocaleDateString('en-US', …)`; the exact locale text
is irrelevant to every claim. -/
def fmtDate (d : Int) : String := "DATE " ++ toString d

/-- `s.includes(t)` on strings (for the urgency keyword check). -/
def containsSubstr (s t : String) : Bool := 2 ≤ (s.splitOn t).length

/-- The `for (const u of users) await createNotification(...)` fan-out
loop. -/
def notifyEach (env : Env) (db : DB) (users : List User)
    (title message : String) (link : Option String) : DB :=
  users.foldl (fun d u => (createNotification env d u.id title message link).1) db

/-- `prisma.user.findMany({ where: { role: 'ADMIN' } })`. -/
def admins (db : DB) : List User := db.users.filter (fun u => u.role == "ADMIN")

/-- `Math.ceil(timeDiff / (1000*3600*24))` on the millisecond difference:
the ceiling of `(date − now) / 86400000` over the integers. -/
def daysDiffCeil (nowMs date : Int) : Int :=
  (date - nowMs + 86399999) / 86400000

/-- Prisma update semantics for an optional field: `undefined` leaves the
stored value unchanged. -/
def updReason (incoming old : Option String) : Option String :=
  match incoming with
  | some r => some r
  | none => old

/-- The patient-facing message of a doctor-initiated cancellation,
including the reason when one was given. -/
def doctorCancelPatientMsg (doctor : Doctor) (reason : Option String) : String :=
  "Unfortunately, your appointment with Dr. " ++ doctor.name ++
    " has been cancelled. " ++
    (match reason with
     | some r => "Reason: " ++ r
     | none => "Please contact us for rescheduling.")

/-- The admin urgent alert of a doctor-initiated cancellation. -/
def doctorCancelAdminMsg (doctor : Doctor) (appointment : Appointment)
    (patient : Patient) (reason : Option String) : String :=
  "Dr. " ++ doctor.name ++ " cancelled appointment with " ++
    patient.first_name ++ " " ++ patient.last_name ++ " on " ++
    fmtDate appointment.appointment_date ++ " at " ++ appointment.time ++
    ". " ++
    (match reason with
     | some r => "Reason: " ++ r
     | none => "No reason provided.")

/-- The doctor-facing message of a patient-initiated cancellation. -/
def patientCancelDoctorMsg (patient : Patient) (appointment : Appointment)
    (reason : Option String) : String :=
  patient.first_name ++ " " ++ patient.last_name ++
    " has cancelled their appointment scheduled for " ++
    fmtDate appointment.appointment_date ++ " at " ++ appointment.time ++
    ". " ++
    (match reason with
     | some r => "Reason: " ++ r
     | none => "")

/-- The admin urgent alert of a patient-initiated same-day/next-day
cancellation. -/
def patientCancelAdminMsg (patient : Patient) (doctor : Doctor)
    (appointment : Appointment) : String :=
  "Patient " ++ patient.first_name ++ " " ++ patient.last_name ++
    " cancelled appointment with Dr. " ++ doctor.name ++
    " scheduled for " ++ fmtDate appointment.appointment_date ++ " at " ++
    appointment.time ++ ". Immediate attention may be required."

/-- The validated body of a booking request. -/
structure BookingInput where
  doctor_id : String
  appointment_date : Int
  time : String
  atype : String
  note : Option String
deriving DecidableEq, Repr

/-- The slot-conflict `findFirst` filter: same doctor, date and time with
`status: { notIn: [CANCELLED] }`. -/
def conflictPred (body : BookingInput) : Appointment → Bool := fun a =>
  a.doctor_id == body.doctor_id &&
  a.appointment_date == body.appointment_date &&
  a.time == body.time &&
  !(a.status == AStatus.CANCELLED)

/-- The appointment row `createAppointmentService` creates: status
`PENDING`, no reason. -/
def newAppointment (db : DB) (patient : Patient) (body : BookingInput) :
    Appointment :=
  ⟨db.nextApptId, patient.id, body.doctor_id, body.appointment_date,
    body.time, body.atype, body.note, AStatus.PENDING, none⟩

/-- `createAppointmentService(userId, body)`. -/
def createAppointmentService (env : Env) (db : DB) (userId : String)
    (body : BookingInput) : DB × Except String Appointment :=
  match db.patients.find? (fun p => p.user_id == some userId) with
  | none => (db, .error "Patient profile not found")
  | some patient =>
    match db.doctors.find? (fun d => d.id == body.doctor_id) with
    | none => (db, .error "Doctor not found")
    | some doctor =>
      match db.appointments.find? (conflictPred body) with
      | some _ => (db, .error "This time slot is already booked for the selected doctor")
      | none =>
        let appointment := newAppointment db patient body
        let db1 : DB := { db with
          appointments := db.appointments ++ [appointment]
          nextApptId := db.nextApptId + 1 }
        -- notification to the doctor, when a user account is linked
        let db2 : DB :=
          match doctor.user_id with
          | some du =>
            (createNotification env db1 du "🩺 New Appointment Request"
              (patient.first_name ++ " " ++ patient.last_name ++
                " has requested a " ++ body.atype ++ " appointment on " ++
                fmtDate body.appointment_date ++ " at " ++ body.time ++
                ". Please review and approve.")
              (some ("/doctor/appointments/" ++ toString appointment.id))).1
          | none => db1
        -- confirmation notification to the patient (the request's user id)
        let db3 : DB :=
          (createNotification env db2 userId "📅 Appointment Request Submitted"
            ("Your " ++ body.atype ++ " appointment with Dr. " ++ doctor.name ++
              " on " ++ fmtDate body.appointment_date ++ " at " ++ body.time ++
              " has been submitted and is pending approval.")
            (some ("/appointments/" ++ toString appointment.id))).1
        -- admin fan-out during business hours or for urgent/emergency types
        let db4 : DB :=
          if (8 ≤ env.nowHour && env.nowHour ≤ 17) ||
              containsSubstr body.atype.toLower "urgent" ||
              containsSubstr body.atype.toLower "emergency" then
            notifyEach env db3 (admins db3) "📋 New Appointment Request"
              (patient.first_name ++ " " ++ patient.last_name ++ " booked a " ++
                body.atype ++ " appointment with Dr. " ++ doctor.name ++
                " for " ++ fmtDate body.appointment_date ++ " at " ++
                body.time ++ ".")
              (some "/admin/appointments")
          else db3
        (db4, .ok appointment)

/-- `updateAppointmentStatusService(userId, appointmentId, body)` — the
patient-initiated status transition. -/
def updateAppointmentStatusService (env : Env) (db : DB) (userId : String)
    (appointmentId : Nat) (status : AStatus) (reason : Option String) :
    DB × Except String Appointment :=
  match db.patients.find? (fun p => p.user_id == some userId) with
  | none => (db, .error "Patient profile not found")
  | some patient =>
    match db.appointments.find? (fun a =>
        a.id == appointmentId && a.patient_id == patient.id) with
    | none => (db, .error "Appointment not found")
    | some existingAppointment =>
      if status == AStatus.CANCELLED &&
          !(existingAppointment.status == AStatus.PENDING) then
        (db, .error "Only pending appointments can be cancelled")
      else
        let updated := { existingAppointment with
          status := status
          reason := updReason reason existingAppointment.reason }
        let db1 : DB := { db with appointments := db.appointments.map (fun a =>
          if a.id == appointmentId then
            { a with status := status, reason := updReason reason a.reason }
          else a) }
        -- notification to the doctor when the patient cancels
        if status == AStatus.CANCELLED then
          match db1.doctors.find? (fun d => d.id == existingAppointment.doctor_id) with
          | some doctor =>
            match doctor.user_id with
            | some du =>
              let db2 :=
                (createNotification env db1 du "🚫 Appointment Cancelled by Patient"
                  (patientCancelDoctorMsg patient existingAppointment reason)
                  (some "/doctor/appointments")).1
              -- same-day / next-day cancellations alert every admin
              let db3 :=
                if daysDiffCeil env.nowMs existingAppointment.appointment_date ≤ 1 then
                  notifyEach env db2 (admins db2)
                    "⚠️ Urgent: Same-Day Appointment Cancellation"
                    (patientCancelAdminMsg patient doctor existingAppointment)
                    (some "/admin/appointments")
                else db2
              (db3, .ok updated)
            | none => (db1, .ok updated)
          | none => (db1, .ok updated)
        else (db1, .ok updated)

/-- `updateDoctorAppointmentStatus(userId, appointmentId, status, reason)`
— the doctor-initiated status transition (status arrives as a string and
is validated against the enum).  In the `CANCELLED` case the admin
fan-out sits inside the `switch`, before the patient notification. -/
def updateDoctorAppointmentStatus (env : Env) (db : DB) (userId : String)
    (appointmentId : Nat) (status : String) (reason : Option String) :
    DB × Except String Appointment :=
  match parseStatus status with
  | none => (db, .error "Invalid status value")
  | some st =>
    match db.doctors.find? (fun d => d.user_id == some userId) with
    | none => (db, .error "Doctor not found")
    | some doctor =>
      match db.appointments.find? (fun a =>
          a.id == appointmentId && a.doctor_id == doctor.id) with
      | none => (db, .error "Appointment not found")
      | some _appointment =>
        let db1 : DB := { db with appointments := db.appointments.map (fun a =>
          if a.id == appointmentId then
            { a with status := st, reason := updReason reason a.reason }
          else a) }
        match db1.appointments.find? (fun a => a.id == appointmentId) with
        | none => (db1, .error "Appointment not found")
        | some updated =>
          match db1.patients.find? (fun p => p.id == updated.patient_id) with
          | none => (db1, .ok updated)
          | some patient =>
            match patient.user_id with
            | none => (db1, .ok updated)
            | some pu =>
              match st with
              | AStatus.SCHEDULED =>
                let db2 :=
                  (createNotification env db1 pu "✅ Appointment Approved!"
                    ("Good news! Dr. " ++ doctor.name ++
                      " has approved your appointment. Your appointment is now confirmed.")
                    (some "/appointments")).1
                -- reminder notification, re-fetching the appointment row
                let db3 :=
                  match db2.appointments.find? (fun a => a.id == appointmentId) with
                  | some details =>
                    (createNotification env db2 pu "⏰ Appointment Reminder"
                      ("Don\x27t forget! You have an appointment with Dr. " ++
                        doctor.name ++ " on " ++ fmtDate details.appointment_date ++
                        " at " ++ details.time ++ ".")
                      (some "/appointments")).1
                  | none => db2
                (db3, .ok updated)
              | AStatus.COMPLETED =>
                ((createNotification env db1 pu "🏥 Appointment Completed"
                  ("Your appointment with Dr. " ++ doctor.name ++
                    " has been marked as completed. Thank you for visiting us!")
                  (some "/appointments")).1, .ok updated)
              | AStatus.CANCELLED =>
                -- admin alerts are emitted here, inside the switch, BEFORE
                -- the patient's cancellation notification below
                let db2 :=
                  match db1.appointments.find? (fun a => a.id == appointmentId) with
                  | some details =>
                    if daysDiffCeil env.nowMs details.appointment_date ≤ 2 then
                      notifyEach env db1 (admins db1) "🚨 Doctor Cancelled Appointment"
                        (doctorCancelAdminMsg doctor details patient reason)
                        (some "/admin/appointments")
                    else db1
                  | none => db1
                let db3 :=
                  (createNotification env db2 pu "❌ Appointment Cancelled"
                    (doctorCancelPatientMsg doctor reason)
                    (some "/appointments")).1
                (db3, .ok updated)
              | AStatus.PENDING =>
                -- the switch's default branch
                ((createNotification env db1 pu "📋 Appointment Status Updated"
                  ("Your appointment status was changed to " ++ status ++ ".")
                  (some "/appointments")).1, .ok updated)

/-- The user/title/message/link content of a notification row (ids and
timestamps stripped). -/
def content (n : Notification) :
    String × String × String × Option String :=
  (n.userId, n.title, n.message, n.link)

/-- The persisted notification contents, in creation order. -/
def contentsOf (db : DB) : List (String × String × String × Option String) :=
  db.notifications.map content

/-- A concrete database for the cancellation scenarios: one admin, one
doctor (user `docU`), one patient (user `patU`) and appointment 42
tomorrow (date = 86400000 ms with `nowMs = 0`). -/
def cancelDB : DB :=
  { users := [⟨"admin1", "ADMIN"⟩]
    patients := [⟨"patient1", some "patU", "Alice", "Brown"⟩]
    doctors := [⟨"doc1", some "docU", "Smith"⟩]
    appointments := [⟨42, "patient1", "doc1", 86400000, "10:00", "checkup",
      none, AStatus.SCHEDULED, none⟩]
    notifications := []
    nextApptId := 43
    nextNotifId := 0 }

/-- The same database with appointment 42 still `PENDING` (for the
patient-initiated cancellation witnesses). -/
def cancelDBPending : DB :=
  { cancelDB with appointments := [⟨42, "patient1", "doc1", 86400000, "10:00",
      "checkup", none, AStatus.PENDING, none⟩] }

/-- Request context for the scenarios: no live socket, `now = 0`,
mid-day. -/
def cancelEnv : Env := ⟨false, 0, 12⟩

/-- State after the doctor cancels appointment 42 with reason
"emergency". -/
def afterDoctorCancel : DB :=
  (updateDoctorAppointmentStatus cancelEnv cancelDB "docU" 42 "CANCELLED"
    (some "emergency")).1

/-- State after the patient cancels the pending appointment 42. -/
def afterPatientCancel : DB :=
  (updateAppointmentStatusService cancelEnv cancelDBPending "patU" 42
    AStatus.CANCELLED (some "conflict")).1

/-- A small notification store: row 3 unread, row 4 already read. -/
def notifDB : DB :=
  { users := []
    patients := []
    doctors := []
    appointments := []
    notifications := [⟨3, "u1", "T", "M", none, false, 0⟩,
      ⟨4, "u1", "T2", "M2", none, true, 5⟩]
    nextApptId := 0
    nextNotifId := 5 }

end Appt

end HMS

namespace HMS

/-! ## Lemmas and claim theorems -/

/-- `find?` over a mapped list, when the map preserves the predicate. -/
theorem find?_map_of_pred_inv {α : Type} (q : α → Bool) (f : α → α)
    (hf : ∀ x, q (f x) = q x) :
    ∀ (l : List α), (l.map f).find? q = Option.map f (l.find? q) := by
  intro l
  induction l with
  | nil => rfl
  | cons a l ih =>
    by_cases h : q a = true
    · simp [List.find?_cons, hf, h]
    · simp only [Bool.not_eq_true] at h
      simp [List.find?_cons, hf, h, ih]

/-- `find?` over an appended list whose first part has no match. -/
theorem find?_append_of_none {α : Type} (q : α → Bool) (l₁ l₂ : List α)
    (h : l₁.find? q = none) : (l₁ ++ l₂).find? q = l₂.find? q := by
  induction l₁ with
  | nil => rfl
  | cons a l ih =>
    rw [List.find?_cons] at h
    by_cases ha : q a = true
    · simp [ha] at h
    · simp only [Bool.not_eq_true] at ha
      simp only [ha] at h
      simp [List.find?_cons, ha, ih h]

namespace Registry

theorem lookupSocket_setUser (m : List (String × String))
    (u s : String) : lookupSocket (setUser m u s) u = some s := by
  unfold lookupSocket setUser
  by_cases h : m.any (fun e => e.1 == u) = true
  · rw [if_pos h]
    rw [find?_map_of_pred_inv (fun e => e.1 == u)
      (fun e => if e.1 == u then (u, s) else e)
      (by intro x; by_cases hx : (x.1 == u) = true <;> simp [hx])]
    rcases hfind : m.find? (fun e => e.1 == u) with _ | e
    · rw [List.find?_eq_none] at hfind
      rw [List.any_eq_true] at h
      obtain ⟨e, he, hq⟩ := h
      exact absurd hq (by simpa using hfind e he)
    · have hpe : e.1 = u := by simpa using List.find?_some hfind
      rw [hfind]
      simp [hpe]
  · rw [if_neg h]
    rw [find?_append_of_none]
    · simp
    · rw [List.find?_eq_none]
      intro x hx hq
      exact h (List.any_eq_true.mpr ⟨x, hx, hq⟩)

theorem isUserConnected_deleteUser (m : List (String × String))
    (u : String) : isUserConnected (deleteUser m u) u = false := by
  unfold isUserConnected deleteUser
  rw [Bool.eq_false_iff]
  intro hany
  rw [List.any_eq_true] at hany
  obtain ⟨e, he, hq⟩ := hany
  rw [List.mem_filter] at he
  simp [hq] at he

end Registry

namespace Billing

/-- `TotalInvariant` only depends on the `payments` and `bills` tables. -/
theorem totalInvariant_congr {db db' : BillingDB}
    (hp : db'.payments = db.payments) (hb : db'.bills = db.bills)
    (pid : Nat) (h : TotalInvariant db pid) : TotalInvariant db' pid := by
  intro p hfind
  rw [hp] at hfind
  have hdb := h p hfind
  unfold sumBillCosts billsOf at hdb ⊢
  rw [hb]
  exact hdb

/-- When the payment exists, `recalculatePaymentSummary` rewrites exactly
the `total_amount` of that payment and nothing else. -/
theorem recalc_eq_of_found {db : BillingDB} {pid : Nat} {p0 : Payment}
    (h : db.payments.find? (fun q => q.id == pid) = some p0) :
    recalculatePaymentSummary db pid =
      { db with payments := db.payments.map (fun p =>
          if p.id == pid then { p with total_amount := sumBillCosts db pid }
          else p) } := by
  unfold recalculatePaymentSummary
  rw [h]

/-- `sumBillCosts` reads only the `bills` table. -/
theorem sumBillCosts_set_payments (db : BillingDB) (X : List Payment)
    (pid : Nat) :
    sumBillCosts { db with payments := X } pid = sumBillCosts db pid := rfl

/-- Finding by id after updating the `total_amount` of every row with that
id. -/
theorem find?_update_total (l : List Payment) (pid : Nat) (t : ℚ) :
    (l.map (fun p =>
        if p.id == pid then { p with total_amount := t } else p)).find?
      (fun q => q.id == pid) =
    Option.map (fun p => ({ p with total_amount := t } : Payment))
      (l.find? (fun q => q.id == pid)) := by
  rw [@find?_map_of_pred_inv Payment (fun q => q.id == pid)
    (fun p => if p.id == pid then { p with total_amount := t } else p)
    (by intro x; by_cases hx : (x.id == pid) = true <;> simp [hx])]
  cases hfind : l.find? (fun q => q.id == pid) with
  | none => rfl
  | some p0 =>
    have hq' : p0.id = pid := by simpa using List.find?_some hfind
    simp only [Option.map_some']
    rw [if_pos (show (p0.id == pid) = true from by simp [hq'])]

/-- `recalculatePaymentSummary` establishes the total invariant for the
payment it was called on. -/
theorem recalc_totalInvariant (db : BillingDB) (pid : Nat) :
    TotalInvariant (recalculatePaymentSummary db pid) pid := by
  cases h : db.payments.find? (fun q => q.id == pid) with
  | none =>
    have hdb : recalculatePaymentSummary db pid = db := by
      unfold recalculatePaymentSummary
      rw [h]
    rw [hdb]
    intro p hp
    rw [h] at hp
    exact Option.noConfusion hp
  | some p0 =>
    rw [recalc_eq_of_found h]
    intro p hp
    have hp' : (db.payments.map (fun p =>
        if p.id == pid then { p with total_amount := sumBillCosts db pid }
        else p)).find? (fun q => q.id == pid) = some p := hp
    rw [find?_update_total, h] at hp'
    simp only [Option.map_some', Option.some.injEq] at hp'
    subst hp'
    rfl

theorem notifyBillAdded_payments (db : BillingDB) (s : String) :
    (notifyBillAdded db s).payments = db.payments := by
  unfold notifyBillAdded
  cases h : db.patients.find? (fun p => p.id == s) with
  | none => rfl
  | some patient => cases hu : patient.user_id <;> simp [hu, appendNotif]

theorem notifyBillAdded_bills (db : BillingDB) (s : String) :
    (notifyBillAdded db s).bills = db.bills := by
  unfold notifyBillAdded
  cases h : db.patients.find? (fun p => p.id == s) with
  | none => rfl
  | some patient => cases hu : patient.user_id <;> simp [hu, appendNotif]

theorem createEmptyPayment_services (db : BillingDB) (aid : Nat)
    (s : String) (now : Int) :
    (createEmptyPayment db aid s now).services = db.services := rfl

theorem setFinalizedByAppt_appointments (db : BillingDB) (aid : Nat) (b : Bool) :
    (setFinalizedByAppt db aid b).appointments = db.appointments := rfl

theorem setFinalizedByAppt_services (db : BillingDB) (aid : Nat) (b : Bool) :
    (setFinalizedByAppt db aid b).services = db.services := rfl

theorem setFinalizedByAppt_bills (db : BillingDB) (aid : Nat) (b : Bool) :
    (setFinalizedByAppt db aid b).bills = db.bills := rfl

theorem setFinalizedByAppt_patients (db : BillingDB) (aid : Nat) (b : Bool) :
    (setFinalizedByAppt db aid b).patients = db.patients := rfl

theorem setFinalizedByAppt_nextPaymentId (db : BillingDB) (aid : Nat) (b : Bool) :
    (setFinalizedByAppt db aid b).nextPaymentId = db.nextPaymentId := rfl

theorem setFinalizedByAppt_nextBillId (db : BillingDB) (aid : Nat) (b : Bool) :
    (setFinalizedByAppt db aid b).nextBillId = db.nextBillId := rfl

theorem createEmptyPayment_nextBillId (db : BillingDB) (aid : Nat)
    (s : String) (now : Int) :
    (createEmptyPayment db aid s now).nextBillId = db.nextBillId := rfl

theorem emptyPayment_setFinalized (db : BillingDB) (aid : Nat) (b : Bool)
    (aid2 : Nat) (s : String) (now : Int) :
    emptyPayment (setFinalizedByAppt db aid b) aid2 s now =
      emptyPayment db aid2 s now := rfl

/-- Re-fetching the lazily created payment finds exactly the new row. -/
theorem findPaymentByAppt_createEmptyPayment {db : BillingDB} {aid : Nat}
    (h : findPaymentByAppt db aid = none) (s : String) (now : Int) :
    findPaymentByAppt (createEmptyPayment db aid s now) aid =
      some (emptyPayment db aid s now) := by
  unfold findPaymentByAppt at h ⊢
  unfold createEmptyPayment
  rw [find?_append_of_none _ _ _ h]
  simp [List.find?_cons, emptyPayment]

end Billing

/-- Claim C1 (amended): after any successful bill-line mutation
(`addBillToAppointment`, `editBillInAppointment`,
`deleteBillFromAppointment`) or final-summary edit
(`editFinalBillSummary`) completes, the invoice of the *addressed*
appointment — the one the recompute step runs on — has `total_amount`
equal to the sum of `total_cost` over its current bill lines; for
`addBillToAppointment` the created line always belongs to that invoice,
so the invariant holds for the mutated line's invoice as well.  The
recompute step (`recalculatePaymentSummary`) rewrites only
`total_amount`, leaving `discount` and the `finalized` flag (and
everything else) unchanged.  The original claim's "for every invoice"
fails: the edit/delete services find the bill by id alone with no
ownership check, so a mutation addressed to one appointment can touch a
line of a different invoice, which is then left stale (see the
counterexample). -/
theorem claim_C1 :
    (∀ (db : Billing.BillingDB) (pid : Nat) (p0 : Billing.Payment),
        db.payments.find? (fun q => q.id == pid) = some p0 →
        Billing.recalculatePaymentSummary db pid =
          { db with payments := db.payments.map (fun p =>
              if p.id == pid then
                { p with total_amount := Billing.sumBillCosts db pid }
              else p) }) ∧
    (∀ db aid sid q sd now db' b,
        Billing.addBillToAppointment db aid sid q sd now = (db', .ok b) →
        Billing.TotalInvariant db' b.bill_id) ∧
    (∀ db aid bid data db' b p0,
        Billing.findPaymentByAppt db aid = some p0 →
        Billing.editBillInAppointment db aid bid data = (db', .ok b) →
        Billing.TotalInvariant db' p0.id) ∧
    (∀ db aid bid db' r p0,
        Billing.findPaymentByAppt db aid = some p0 →
        Billing.deleteBillFromAppointment db aid bid = (db', .ok r) →
        Billing.TotalInvariant db' p0.id) ∧
    (∀ db aid disc bd db' u p0,
        Billing.findPaymentByAppt db aid = some p0 →
        Billing.editFinalBillSummary db aid disc bd = (db', .ok u) →
        Billing.TotalInvariant db' p0.id) := by
  refine ⟨fun db pid p0 h => Billing.recalc_eq_of_found h, ?_, ?_, ?_, ?_⟩
  · -- addBillToAppointment
    intro db aid sid q sd now db' b H
    cases happt : db.appointments.find? (fun a => a.id == aid) with
    | none =>
      simp only [Billing.addBillToAppointment, happt, Prod.mk.injEq] at H
      exact absurd H.2 (by simp)
    | some appt =>
      cases hpay : Billing.findPaymentByAppt db aid with
      | some payment0 =>
        simp only [Billing.addBillToAppointment, happt, hpay] at H
        cases hsvc : db.services.find? (fun s0 => s0.id == sid) with
        | none =>
          simp only [hsvc, Prod.mk.injEq] at H
          exact absurd H.2 (by simp)
        | some service =>
          simp only [hsvc, Prod.mk.injEq, Except.ok.injEq] at H
          obtain ⟨hdb, hb⟩ := H
          subst hdb
          subst hb
          refine Billing.totalInvariant_congr
            (Billing.notifyBillAdded_payments _ _)
            (Billing.notifyBillAdded_bills _ _) _ ?_
          exact Billing.recalc_totalInvariant _ _
      | none =>
        simp only [Billing.addBillToAppointment, happt, hpay,
          Billing.findPaymentByAppt_createEmptyPayment hpay,
          Billing.createEmptyPayment_services] at H
        cases hsvc : db.services.find? (fun s0 => s0.id == sid) with
        | none =>
          simp only [hsvc, Prod.mk.injEq] at H
          exact absurd H.2 (by simp)
        | some service =>
          simp only [hsvc, Prod.mk.injEq, Except.ok.injEq] at H
          obtain ⟨hdb, hb⟩ := H
          subst hdb
          subst hb
          refine Billing.totalInvariant_congr
            (Billing.notifyBillAdded_payments _ _)
            (Billing.notifyBillAdded_bills _ _) _ ?_
          exact Billing.recalc_totalInvariant _ _
  · -- editBillInAppointment
    intro db aid bid data db' b p0 hpay H
    cases hbill : db.bills.find? (fun b0 => b0.id == bid) with
    | none =>
      simp only [Billing.editBillInAppointment, hpay, hbill, Prod.mk.injEq] at H
      exact absurd H.2 (by simp)
    | some bill =>
      cases hsid : data.service_id with
      | none =>
        simp only [Billing.editBillInAppointment, hpay, hbill, hsid,
          Billing.finishBillEdit, Prod.mk.injEq, Except.ok.injEq] at H
        obtain ⟨hdb, -⟩ := H
        subst hdb
        exact Billing.recalc_totalInvariant _ _
      | some sid =>
        cases hsvc : db.services.find? (fun s0 => s0.id == sid) with
        | none =>
          simp only [Billing.editBillInAppointment, hpay, hbill, hsid, hsvc,
            Prod.mk.injEq] at H
          exact absurd H.2 (by simp)
        | some service =>
          simp only [Billing.editBillInAppointment, hpay, hbill, hsid, hsvc,
            Billing.finishBillEdit, Prod.mk.injEq, Except.ok.injEq] at H
          obtain ⟨hdb, -⟩ := H
          subst hdb
          exact Billing.recalc_totalInvariant _ _
  · -- deleteBillFromAppointment
    intro db aid bid db' r p0 hpay H
    cases hbill : db.bills.find? (fun b0 => b0.id == bid) with
    | none =>
      simp only [Billing.deleteBillFromAppointment, hpay, hbill, Prod.mk.injEq] at H
      exact absurd H.2 (by simp)
    | some bill =>
      simp only [Billing.deleteBillFromAppointment, hpay, hbill, Prod.mk.injEq] at H
      obtain ⟨hdb, -⟩ := H
      subst hdb
      exact Billing.recalc_totalInvariant _ _
  · -- editFinalBillSummary
    intro db aid disc bd db' u p0 hpay H
    cases hre : Billing.findPaymentById
        (Billing.recalculatePaymentSummary
          { db with payments := db.payments.map (fun p =>
              if p.id == p0.id then
                { p with discount := disc.getD p.discount,
                         bill_date := bd.getD p.bill_date }
              else p) } p0.id) p0.id with
    | none =>
      simp only [Billing.editFinalBillSummary, hpay, hre, Prod.mk.injEq] at H
      exact absurd H.2 (by simp)
    | some updated =>
      simp only [Billing.editFinalBillSummary, hpay, hre, Prod.mk.injEq] at H
      obtain ⟨hdb, -⟩ := H
      subst hdb
      exact Billing.recalc_totalInvariant _ _

/-- Witness for C1: each conjunct applied on `exampleDB` — an added line,
an edited line (quantity 3 giving 300), a deleted line, a summary edit and
a direct recompute all re-establish the total invariant. -/
theorem claim_C1_witness :
    (Billing.addBillToAppointment Billing.exampleDB 1 5 2 0 0 =
        (Billing.dbAfterAdd, .ok Billing.billAfterAdd)) ∧
    Billing.TotalInvariant Billing.dbAfterAdd Billing.billAfterAdd.bill_id ∧
    (Billing.editBillInAppointment Billing.exampleDB 1 22 ⟨none, some 3, none⟩ =
        (Billing.dbAfterEdit, .ok Billing.billAfterEdit)) ∧
    Billing.TotalInvariant Billing.dbAfterEdit Billing.examplePayment.id ∧
    (Billing.deleteBillFromAppointment Billing.exampleDB 1 22 =
        (Billing.dbAfterDelete, .ok true)) ∧
    Billing.TotalInvariant Billing.dbAfterDelete Billing.examplePayment.id ∧
    (Billing.editFinalBillSummary Billing.exampleDB 1 (some 10) none =
        (Billing.dbAfterSummary, .ok Billing.payAfterSummary)) ∧
    Billing.TotalInvariant Billing.dbAfterSummary Billing.examplePayment.id ∧
    Billing.recalculatePaymentSummary Billing.exampleDB 7 =
      { Billing.exampleDB with
        payments := Billing.exampleDB.payments.map (fun p =>
          if p.id == 7 then
            { p with total_amount := Billing.sumBillCosts Billing.exampleDB 7 }
          else p) } := by
  have hadd : Billing.addBillToAppointment Billing.exampleDB 1 5 2 0 0 =
      (Billing.dbAfterAdd, .ok Billing.billAfterAdd) := by
    norm_num [Billing.addBillToAppointment, Billing.exampleDB,
      Billing.findPaymentByAppt, Billing.createEmptyPayment,
      Billing.emptyPayment, Billing.newBillRow,
      Billing.recalculatePaymentSummary, Billing.sumBillCosts,
      Billing.billsOf, Billing.notifyBillAdded, Billing.appendNotif,
      Billing.dbAfterAdd, Billing.billAfterAdd]
  have hedit : Billing.editBillInAppointment Billing.exampleDB 1 22
      ⟨none, some 3, none⟩ = (Billing.dbAfterEdit, .ok Billing.billAfterEdit) := by
    norm_num [Billing.editBillInAppointment, Billing.exampleDB,
      Billing.findPaymentByAppt, Billing.finishBillEdit,
      Billing.buildBillUpdate, Billing.applyBillUpdate,
      Billing.recalculatePaymentSummary, Billing.sumBillCosts,
      Billing.billsOf, Billing.dbAfterEdit, Billing.billAfterEdit]
  have hdel : Billing.deleteBillFromAppointment Billing.exampleDB 1 22 =
      (Billing.dbAfterDelete, .ok true) := by
    norm_num [Billing.deleteBillFromAppointment, Billing.exampleDB,
      Billing.findPaymentByAppt, Billing.recalculatePaymentSummary,
      Billing.sumBillCosts, Billing.billsOf, Billing.dbAfterDelete]
  have hsum : Billing.editFinalBillSummary Billing.exampleDB 1 (some 10) none =
      (Billing.dbAfterSummary, .ok Billing.payAfterSummary) := by
    norm_num [Billing.editFinalBillSummary, Billing.exampleDB,
      Billing.findPaymentByAppt, Billing.findPaymentById,
      Billing.recalculatePaymentSummary, Billing.sumBillCosts,
      Billing.billsOf, Billing.dbAfterSummary, Billing.payAfterSummary]
  have hfind : Billing.exampleDB.payments.find? (fun q => q.id == 7) =
      some Billing.examplePayment := by decide
  have hfindA : Billing.findPaymentByAppt Billing.exampleDB 1 =
      some Billing.examplePayment := by decide
  exact ⟨hadd,
    claim_C1.2.1 _ _ _ _ _ _ _ _ hadd,
    hedit,
    claim_C1.2.2.1 _ _ _ _ _ _ _ hfindA hedit,
    hdel,
    claim_C1.2.2.2.1 _ _ _ _ _ _ hfindA hdel,
    hsum,
    claim_C1.2.2.2.2 _ _ _ _ _ _ _ hfindA hsum,
    claim_C1.1 _ _ _ hfind⟩

/-- Counterexample to the original claim C1: the edit services find the
bill by id alone.  On `crossDB`, `editBillInAppointment` addressed to
appointment 1 successfully edits bill 30 — which belongs to appointment
2's invoice 8 — raising its `total_cost` to 300, while only invoice 7 is
recomputed: afterwards invoice 8 still has `total_amount = 100` against a
line sum of 300, so the mutated line's invoice violates the claimed
invariant. -/
theorem claim_C1_counterexample :
    (Billing.editBillInAppointment Billing.crossDB 1 30 ⟨none, some 3, none⟩).2 =
      .ok ⟨30, 8, 5, 0, 3, 100, 300⟩ ∧
    (Billing.crossDBAfter.payments.find? (fun q => q.id == 8)).map
      (fun p => p.total_amount) = some 100 ∧
    Billing.sumBillCosts Billing.crossDBAfter 8 = 300 ∧
    ¬ Billing.TotalInvariant Billing.crossDBAfter 8 := by
  have h1 : (Billing.editBillInAppointment Billing.crossDB 1 30
      ⟨none, some 3, none⟩).2 = .ok ⟨30, 8, 5, 0, 3, 100, 300⟩ := by
    norm_num [Billing.editBillInAppointment, Billing.crossDB,
      Billing.findPaymentByAppt, Billing.finishBillEdit,
      Billing.buildBillUpdate, Billing.applyBillUpdate,
      Billing.recalculatePaymentSummary, Billing.sumBillCosts, Billing.billsOf]
  have hfind : Billing.crossDBAfter.payments.find? (fun q => q.id == 8) =
      some ⟨8, 2, "pat2", 0, 0, 0, 100, 0, "CASH", "UNPAID", false⟩ := by
    norm_num [Billing.crossDBAfter, Billing.editBillInAppointment,
      Billing.crossDB, Billing.findPaymentByAppt, Billing.finishBillEdit,
      Billing.buildBillUpdate, Billing.applyBillUpdate,
      Billing.recalculatePaymentSummary, Billing.sumBillCosts, Billing.billsOf]
  have h3 : Billing.sumBillCosts Billing.crossDBAfter 8 = 300 := by
    norm_num [Billing.crossDBAfter, Billing.editBillInAppointment,
      Billing.crossDB, Billing.findPaymentByAppt, Billing.finishBillEdit,
      Billing.buildBillUpdate, Billing.applyBillUpdate,
      Billing.recalculatePaymentSummary, Billing.sumBillCosts, Billing.billsOf]
  refine ⟨h1, by rw [hfind]; rfl, h3, ?_⟩
  intro hInv
  have hbad := hInv _ hfind
  rw [h3] at hbad
  exact absurd hbad (by norm_num)

/-- Claim C2: finalize on an appointment with no invoice fails with the
not-found error "No bills to generate final bill"; on an appointment with
an invoice it updates the payment (`finalized := true`,
`total_amount := Σ line.total_cost`) and returns
`payable = total − total·discount/100` and
`discountAmount = total·discount/100`. -/
theorem claim_C2 :
    (∀ (db : Billing.BillingDB) (aid : Nat) (disc : ℚ) (bd : Int),
        Billing.findPaymentByAppt db aid = none →
        Billing.generateFinalBillForAppointment db aid disc bd =
          (db, .error "No bills to generate final bill")) ∧
    (∀ (db : Billing.BillingDB) (aid : Nat) (disc : ℚ) (bd : Int)
        (p : Billing.Payment),
        Billing.findPaymentByAppt db aid = some p →
        Billing.generateFinalBillForAppointment db aid disc bd =
          ({ db with payments := db.payments.map (fun q =>
              if q.id == p.id then
                { q with discount := disc
                         total_amount := Billing.sumBillCosts db p.id
                         bill_date := bd
                         finalized := true }
              else q) },
           .ok { payment :=
                  { p with discount := disc
                           total_amount := Billing.sumBillCosts db p.id
                           bill_date := bd
                           finalized := true }
                 payable := Billing.sumBillCosts db p.id -
                   Billing.sumBillCosts db p.id * disc / 100
                 discountAmount := Billing.sumBillCosts db p.id * disc / 100 })) := by
  constructor
  · intro db aid disc bd h
    simp only [Billing.generateFinalBillForAppointment, h]
  · intro db aid disc bd p h
    simp only [Billing.generateFinalBillForAppointment, h]

/-- Witness for C2 (the spec's scenario): appointment 2 has no invoice and
finalize fails; appointment 1 has lines summing to 300, so finalize with
discount 10 yields payable 270 and discountAmount 30 with the invoice
finalized. -/
theorem claim_C2_witness :
    Billing.findPaymentByAppt Billing.exampleDB 2 = none ∧
    Billing.generateFinalBillForAppointment Billing.exampleDB 2 10 0 =
      (Billing.exampleDB, .error "No bills to generate final bill") ∧
    Billing.findPaymentByAppt Billing.exampleDB 1 = some Billing.examplePayment ∧
    (Billing.generateFinalBillForAppointment Billing.exampleDB 1 10 0).2 =
      .ok { payment := ⟨7, 1, "pat1", 0, 0, 10, 300, 0, "CASH", "UNPAID", true⟩
            payable := 270
            discountAmount := 30 } := by
  refine ⟨by decide, claim_C2.1 Billing.exampleDB 2 10 0 (by decide),
    by decide, ?_⟩
  rw [claim_C2.2 Billing.exampleDB 1 10 0 Billing.examplePayment (by decide)]
  norm_num [Billing.sumBillCosts, Billing.billsOf, Billing.exampleDB,
    Billing.examplePayment]

/-- Claim C8: no bill-line mutation reads the invoice's `finalized` flag —
flipping it changes none of the three mutations' outcomes (same success
value or same error either way). -/
theorem claim_C8 :
    ∀ (db : Billing.BillingDB) (aid : Nat) (b : Bool),
    (∀ sid q sd now,
        (Billing.addBillToAppointment (Billing.setFinalizedByAppt db aid b)
            aid sid q sd now).2 =
        (Billing.addBillToAppointment db aid sid q sd now).2) ∧
    (∀ bid data,
        (Billing.editBillInAppointment (Billing.setFinalizedByAppt db aid b)
            aid bid data).2 =
        (Billing.editBillInAppointment db aid bid data).2) ∧
    (∀ bid,
        (Billing.deleteBillFromAppointment (Billing.setFinalizedByAppt db aid b)
            aid bid).2 =
        (Billing.deleteBillFromAppointment db aid bid).2) := by
  intro db aid b
  have hfin : ∀ x : Billing.Payment,
      ((if x.appointment_id == aid then { x with finalized := b } else x) :
        Billing.Payment).id = x.id := by
    intro x
    by_cases hx : (x.appointment_id == aid) = true <;> simp [hx]
  have hsetf : Billing.findPaymentByAppt (Billing.setFinalizedByAppt db aid b) aid =
      Option.map (fun x => if x.appointment_id == aid then { x with finalized := b } else x)
        (Billing.findPaymentByAppt db aid) := by
    unfold Billing.findPaymentByAppt Billing.setFinalizedByAppt
    exact find?_map_of_pred_inv _ _
      (by intro x; by_cases hx : (x.appointment_id == aid) = true <;> simp [hx]) _
  refine ⟨?_, ?_, ?_⟩
  · intro sid q sd now
    cases happt : db.appointments.find? (fun a => a.id == aid) with
    | none =>
      simp only [Billing.addBillToAppointment,
        Billing.setFinalizedByAppt_appointments, happt]
    | some appt =>
      cases hpay : Billing.findPaymentByAppt db aid with
      | some payment0 =>
        have hpay' : Billing.findPaymentByAppt (Billing.setFinalizedByAppt db aid b) aid =
            some (if payment0.appointment_id == aid then { payment0 with finalized := b }
              else payment0) := by rw [hsetf, hpay]; rfl
        cases hsvc : db.services.find? (fun s0 => s0.id == sid) with
        | none =>
          simp only [Billing.addBillToAppointment,
            Billing.setFinalizedByAppt_appointments,
            Billing.setFinalizedByAppt_services, happt, hpay, hpay', hsvc]
        | some service =>
          simp only [Billing.addBillToAppointment,
            Billing.setFinalizedByAppt_appointments,
            Billing.setFinalizedByAppt_services,
            Billing.setFinalizedByAppt_nextBillId, happt, hpay, hpay', hsvc,
            Billing.newBillRow, hfin]
      | none =>
        have hpay' : Billing.findPaymentByAppt (Billing.setFinalizedByAppt db aid b) aid =
            none := by rw [hsetf, hpay]; rfl
        have h2 := Billing.findPaymentByAppt_createEmptyPayment hpay' appt.patient_id now
        cases hsvc : db.services.find? (fun s0 => s0.id == sid) with
        | none =>
          simp only [Billing.addBillToAppointment,
            Billing.setFinalizedByAppt_appointments,
            Billing.setFinalizedByAppt_services, happt, hpay, hpay',
            Billing.findPaymentByAppt_createEmptyPayment hpay,
            h2, Billing.createEmptyPayment_services, hsvc]
        | some service =>
          simp only [Billing.addBillToAppointment,
            Billing.setFinalizedByAppt_appointments,
            Billing.setFinalizedByAppt_services,
            Billing.setFinalizedByAppt_nextBillId, happt, hpay, hpay',
            Billing.findPaymentByAppt_createEmptyPayment hpay,
            h2, Billing.createEmptyPayment_services,
            Billing.createEmptyPayment_nextBillId,
            Billing.emptyPayment_setFinalized, hsvc, Billing.newBillRow]
  · intro bid data
    cases hpay : Billing.findPaymentByAppt db aid with
    | none =>
      have hpay' : Billing.findPaymentByAppt (Billing.setFinalizedByAppt db aid b) aid =
          none := by rw [hsetf, hpay]; rfl
      simp only [Billing.editBillInAppointment, hpay, hpay']
    | some payment0 =>
      have hpay' : Billing.findPaymentByAppt (Billing.setFinalizedByAppt db aid b) aid =
          some (if payment0.appointment_id == aid then { payment0 with finalized := b }
            else payment0) := by rw [hsetf, hpay]; rfl
      cases hbill : db.bills.find? (fun b0 => b0.id == bid) with
      | none =>
        simp only [Billing.editBillInAppointment,
          Billing.setFinalizedByAppt_bills, hpay, hpay', hbill]
      | some bill =>
        cases hsid : data.service_id with
        | none =>
          simp only [Billing.editBillInAppointment,
            Billing.setFinalizedByAppt_bills, hpay, hpay', hbill, hsid,
            Billing.finishBillEdit]
        | some sid =>
          cases hsvc : db.services.find? (fun s0 => s0.id == sid) with
          | none =>
            simp only [Billing.editBillInAppointment,
              Billing.setFinalizedByAppt_bills,
              Billing.setFinalizedByAppt_services, hpay, hpay', hbill, hsid, hsvc]
          | some service =>
            simp only [Billing.editBillInAppointment,
              Billing.setFinalizedByAppt_bills,
              Billing.setFinalizedByAppt_services, hpay, hpay', hbill, hsid,
              hsvc, Billing.finishBillEdit]
  · intro bid
    cases hpay : Billing.findPaymentByAppt db aid with
    | none =>
      have hpay' : Billing.findPaymentByAppt (Billing.setFinalizedByAppt db aid b) aid =
          none := by rw [hsetf, hpay]; rfl
      simp only [Billing.deleteBillFromAppointment, hpay, hpay']
    | some payment0 =>
      have hpay' : Billing.findPaymentByAppt (Billing.setFinalizedByAppt db aid b) aid =
          some (if payment0.appointment_id == aid then { payment0 with finalized := b }
            else payment0) := by rw [hsetf, hpay]; rfl
      cases hbill : db.bills.find? (fun b0 => b0.id == bid) with
      | none =>
        simp only [Billing.deleteBillFromAppointment,
          Billing.setFinalizedByAppt_bills, hpay, hpay', hbill]
      | some bill =>
        simp only [Billing.deleteBillFromAppointment,
          Billing.setFinalizedByAppt_bills, hpay, hpay', hbill]

namespace Appt

theorem createNotification_fst_notifications (env : Env) (db : DB)
    (u t m : String) (l : Option String) :
    (createNotification env db u t m l).1.notifications =
      db.notifications ++ [mkNotification db env u t m l] := rfl

theorem createNotification_fst_appointments (env : Env) (db : DB)
    (u t m : String) (l : Option String) :
    (createNotification env db u t m l).1.appointments = db.appointments := rfl

theorem createNotification_fst_users (env : Env) (db : DB)
    (u t m : String) (l : Option String) :
    (createNotification env db u t m l).1.users = db.users := rfl

theorem contentsOf_createNotification (env : Env) (db : DB)
    (u t m : String) (l : Option String) :
    contentsOf (createNotification env db u t m l).1 =
      contentsOf db ++ [(u, t, m, l)] := by
  simp [contentsOf, createNotification, mkNotification, content]

theorem notifyEach_eq_step (env : Env) (db : DB) (u : User) (us : List User)
    (t m : String) (l : Option String) :
    notifyEach env db (u :: us) t m l =
      notifyEach env (createNotification env db u.id t m l).1 us t m l := rfl

theorem contentsOf_notifyEach (env : Env) (users : List User) :
    ∀ (db : DB) (t m : String) (l : Option String),
    contentsOf (notifyEach env db users t m l) =
      contentsOf db ++ users.map (fun u => (u.id, t, m, l)) := by
  induction users with
  | nil => intro db t m l; simp [notifyEach, contentsOf]
  | cons u us ih =>
    intro db t m l
    rw [notifyEach_eq_step, ih, contentsOf_createNotification]
    simp

theorem notifyEach_appointments (env : Env) (users : List User) :
    ∀ (db : DB) (t m : String) (l : Option String),
    (notifyEach env db users t m l).appointments = db.appointments := by
  induction users with
  | nil => intro db t m l; rfl
  | cons u us ih =>
    intro db t m l
    rw [notifyEach_eq_step, ih]
    rfl

/-- Finding by id after flipping `isRead` on every row with that id. -/
theorem find?_set_read (l : List Notification) (id : Nat) :
    (l.map (fun m =>
        if m.id == id then { m with isRead := true } else m)).find?
      (fun m => m.id == id) =
    Option.map (fun m => ({ m with isRead := true } : Notification))
      (l.find? (fun m => m.id == id)) := by
  rw [@find?_map_of_pred_inv Notification (fun m => m.id == id)
    (fun m => if m.id == id then { m with isRead := true } else m)
    (by intro x; by_cases hx : (x.id == id) = true <;> simp [hx])]
  cases hfind : l.find? (fun m => m.id == id) with
  | none => rfl
  | some n0 =>
    have hq : n0.id = id := by simpa using List.find?_some hfind
    simp only [Option.map_some']
    rw [if_pos (show (n0.id == id) = true from by simp [hq])]

/-- Finding by id after a status update keyed by that id. -/
theorem find?_set_status (l : List Appointment) (aid : Nat) (st : AStatus)
    (r : Option String) :
    (l.map (fun a =>
        if a.id == aid then { a with status := st, reason := updReason r a.reason }
        else a)).find? (fun a => a.id == aid) =
    Option.map (fun a =>
        ({ a with status := st, reason := updReason r a.reason } : Appointment))
      (l.find? (fun a => a.id == aid)) := by
  rw [@find?_map_of_pred_inv Appointment (fun a => a.id == aid)
    (fun a => if a.id == aid then { a with status := st, reason := updReason r a.reason } else a)
    (by intro x; by_cases hx : (x.id == aid) = true <;> simp [hx])]
  cases hfind : l.find? (fun a => a.id == aid) with
  | none => rfl
  | some a0 =>
    have hq : a0.id = aid := by simpa using List.find?_some hfind
    simp only [Option.map_some']
    rw [if_pos (show (a0.id == aid) = true from by simp [hq])]

theorem contentsOf_update_appointments (db : DB) (X : List Appointment) :
    contentsOf { db with appointments := X } = contentsOf db := rfl

theorem admins_update_appointments (db : DB) (X : List Appointment) :
    admins { db with appointments := X } = admins db := rfl

theorem admins_createNotification (env : Env) (db : DB) (u t m : String)
    (l : Option String) :
    admins (createNotification env db u t m l).1 = admins db := rfl

/-- The admin message reads only the date and time of the appointment, so
the post-update row produces the same text. -/
theorem doctorCancelAdminMsg_update (doctor : Doctor)
    (appointment : Appointment) (patient : Patient) (reason : Option String)
    (st : AStatus) (r2 : Option String) :
    doctorCancelAdminMsg doctor
        { appointment with status := st, reason := r2 } patient reason =
      doctorCancelAdminMsg doctor appointment patient reason := rfl

/-- `Math.ceil((date − now)/dayMs) ≤ k` says exactly that the appointment
date is at most `k` days after "now". -/
theorem daysDiffCeil_le_iff (nowMs date k : Int) :
    daysDiffCeil nowMs date ≤ k ↔ date - nowMs ≤ k * 86400000 := by
  unfold daysDiffCeil
  omega

/-- Full characterization of a doctor-initiated cancellation: the updated
appointment is returned, and the persisted notification contents are the
prior ones, then the conditional admin fan-out, then the patient's
cancellation message — in that order. -/
theorem updateDoctorCancel_spec (env : Env) (db : DB) (userId : String)
    (aid : Nat) (reason : Option String) (doctor : Doctor)
    (appointment : Appointment) (patient : Patient) (pu : String)
    (hdoc : db.doctors.find? (fun d => d.user_id == some userId) = some doctor)
    (happt : db.appointments.find? (fun a =>
        a.id == aid && a.doctor_id == doctor.id) = some appointment)
    (hfirst : db.appointments.find? (fun a => a.id == aid) = some appointment)
    (hpat : db.patients.find? (fun p => p.id == appointment.patient_id) = some patient)
    (hpu : patient.user_id = some pu) :
    (updateDoctorAppointmentStatus env db userId aid "CANCELLED" reason).2 =
      .ok { appointment with
            status := AStatus.CANCELLED
            reason := updReason reason appointment.reason } ∧
    contentsOf (updateDoctorAppointmentStatus env db userId aid "CANCELLED" reason).1 =
      contentsOf db ++
        (if daysDiffCeil env.nowMs appointment.appointment_date ≤ 2 then
          (admins db).map (fun u =>
            (u.id, "🚨 Doctor Cancelled Appointment",
              doctorCancelAdminMsg doctor appointment patient reason,
              some "/admin/appointments"))
         else []) ++
        [(pu, "❌ Appointment Cancelled", doctorCancelPatientMsg doctor reason,
          some "/appointments")] := by
  have hps : parseStatus "CANCELLED" = some AStatus.CANCELLED := rfl
  have hdet : (db.appointments.map (fun a =>
      if a.id == aid then
        { a with status := AStatus.CANCELLED, reason := updReason reason a.reason }
      else a)).find? (fun a => a.id == aid) =
      some { appointment with
             status := AStatus.CANCELLED
             reason := updReason reason appointment.reason } := by
    rw [find?_set_status, hfirst]
    rfl
  constructor
  · simp only [updateDoctorAppointmentStatus, hps, hdoc, happt, hdet, hpat, hpu]
  · simp only [updateDoctorAppointmentStatus, hps, hdoc, happt, hdet, hpat, hpu]
    by_cases hc : daysDiffCeil env.nowMs appointment.appointment_date ≤ 2
    · simp only [hc, if_true, contentsOf_createNotification,
        contentsOf_notifyEach, contentsOf_update_appointments,
        admins_update_appointments, doctorCancelAdminMsg_update,
        List.append_assoc]
    · simp only [hc, if_false, contentsOf_createNotification,
        contentsOf_update_appointments, List.append_nil, List.nil_append]

/-- Full characterization of a patient-initiated cancellation from
`PENDING`: the updated appointment is returned, and the persisted
notification contents are the prior ones, then the doctor's cancellation
message, then the conditional admin fan-out — in that order. -/
theorem updatePatientCancel_spec (env : Env) (db : DB) (userId : String)
    (aid : Nat) (reason : Option String) (patient : Patient)
    (appointment : Appointment) (doctor : Doctor) (du : String)
    (hpat : db.patients.find? (fun p => p.user_id == some userId) = some patient)
    (happt : db.appointments.find? (fun a =>
        a.id == aid && a.patient_id == patient.id) = some appointment)
    (hpend : appointment.status = AStatus.PENDING)
    (hdoc : db.doctors.find? (fun d => d.id == appointment.doctor_id) = some doctor)
    (hdu : doctor.user_id = some du) :
    (updateAppointmentStatusService env db userId aid AStatus.CANCELLED reason).2 =
      .ok { appointment with
            status := AStatus.CANCELLED
            reason := updReason reason appointment.reason } ∧
    contentsOf (updateAppointmentStatusService env db userId aid
        AStatus.CANCELLED reason).1 =
      contentsOf db ++
        [(du, "🚫 Appointment Cancelled by Patient",
          patientCancelDoctorMsg patient appointment reason,
          some "/doctor/appointments")] ++
        (if daysDiffCeil env.nowMs appointment.appointment_date ≤ 1 then
          (admins db).map (fun u =>
            (u.id, "⚠️ Urgent: Same-Day Appointment Cancellation",
              patientCancelAdminMsg patient doctor appointment,
              some "/admin/appointments"))
         else []) := by
  have hred : Appt.updateAppointmentStatusService env db userId aid
      AStatus.CANCELLED reason =
      (if daysDiffCeil env.nowMs appointment.appointment_date ≤ 1 then
        notifyEach env
          (createNotification env
            { db with appointments := db.appointments.map (fun a =>
                if a.id == aid then
                  { a with status := AStatus.CANCELLED
                           reason := updReason reason a.reason }
                else a) }
            du "🚫 Appointment Cancelled by Patient"
            (patientCancelDoctorMsg patient appointment reason)
            (some "/doctor/appointments")).1
          (admins db) "⚠️ Urgent: Same-Day Appointment Cancellation"
          (patientCancelAdminMsg patient doctor appointment)
          (some "/admin/appointments")
      else
        (createNotification env
          { db with appointments := db.appointments.map (fun a =>
              if a.id == aid then
                { a with status := AStatus.CANCELLED
                         reason := updReason reason a.reason }
              else a) }
          du "🚫 Appointment Cancelled by Patient"
          (patientCancelDoctorMsg patient appointment reason)
          (some "/doctor/appointments")).1,
       .ok { appointment with
             status := AStatus.CANCELLED
             reason := updReason reason appointment.reason }) := by
    simp only [updateAppointmentStatusService, hpat, happt]
    rw [if_neg (by simp [hpend])]
    simp only [beq_self_eq_true, if_true, hdoc, hdu, admins_createNotification,
      admins_update_appointments]
  rw [hred]
  by_cases hc : daysDiffCeil env.nowMs appointment.appointment_date ≤ 1
  · simp only [hc, if_true, contentsOf_notifyEach,
      contentsOf_createNotification, contentsOf_update_appointments,
      List.append_assoc]
    exact ⟨trivial, trivial⟩
  · simp only [hc, if_false, contentsOf_createNotification,
      contentsOf_update_appointments, List.append_nil, List.nil_append]
    exact ⟨trivial, trivial⟩

/-- Marking read twice rewrites the table once. -/
theorem map_set_read_idem (l : List Notification) (id : Nat) :
    ((l.map (fun m => if m.id == id then { m with isRead := true } else m)).map
        (fun m => if m.id == id then { m with isRead := true } else m)) =
      l.map (fun m => if m.id == id then { m with isRead := true } else m) := by
  rw [List.map_map]
  congr 1
  funext x
  by_cases hx : x.id = id
  · simp [hx]
  · simp [hx]

end Appt

/-- Claim C4: `createNotification` always persists the row (with
`isRead = false`) as its first step; the persisted state does not depend
on whether a live-delivery channel exists, a `getNotifications` call right
after the dispatch returns the new row (for both `unread` modes), the
function never fails, and every live payload it emits is built from the
persisted row. -/
theorem claim_C4 (env : Appt.Env) (db : Appt.DB) (u t m : String)
    (l : Option String) :
    (Appt.createNotification env db u t m l).1.notifications =
        db.notifications ++ [Appt.mkNotification db env u t m l] ∧
    (Appt.mkNotification db env u t m l).isRead = false ∧
    Appt.mkNotification db env u t m l ∈
        Appt.getNotifications (Appt.createNotification env db u t m l).1 u true ∧
    Appt.mkNotification db env u t m l ∈
        Appt.getNotifications (Appt.createNotification env db u t m l).1 u false ∧
    (Appt.createNotification ⟨false, env.nowMs, env.nowHour⟩ db u t m l).1 =
        (Appt.createNotification ⟨true, env.nowMs, env.nowHour⟩ db u t m l).1 ∧
    (Appt.createNotification env db u t m l).2.2 =
        (if env.ws then [Appt.payloadOf (Appt.mkNotification db env u t m l)]
         else []) ∧
    (∀ p ∈ (Appt.createNotification env db u t m l).2.2,
        p = Appt.payloadOf (Appt.mkNotification db env u t m l)) := by
  refine ⟨rfl, rfl, ?_, ?_, rfl, rfl, ?_⟩
  · simp [Appt.getNotifications, Appt.createNotification, Appt.mkNotification]
  · simp [Appt.getNotifications, Appt.createNotification, Appt.mkNotification]
  · intro p hp
    by_cases hw : env.ws
    · simp [Appt.createNotification, hw] at hp
      exact hp
    · simp [Appt.createNotification, hw] at hp

/-- Claim C9: `markNotificationRead` on an existing row returns it with
`isRead = true` and rewrites only that flag; calling it again on the
already-read state errors neither time, changes nothing and returns the
same row (markRead after markRead equals markRead). -/
theorem claim_C9 (db : Appt.DB) (id : Nat) (n : Appt.Notification)
    (h : db.notifications.find? (fun m => m.id == id) = some n) :
    (Appt.markNotificationRead db id).2 = .ok { n with isRead := true } ∧
    (Appt.markNotificationRead db id).1.notifications =
      db.notifications.map (fun m =>
        if m.id == id then { m with isRead := true } else m) ∧
    Appt.markNotificationRead (Appt.markNotificationRead db id).1 id =
      ((Appt.markNotificationRead db id).1, .ok { n with isRead := true }) := by
  have h1 : Appt.markNotificationRead db id =
      ({ db with notifications := db.notifications.map (fun m =>
          if m.id == id then { m with isRead := true } else m) },
       .ok { n with isRead := true }) := by
    simp only [Appt.markNotificationRead, h]
  refine ⟨by rw [h1], by rw [h1], ?_⟩
  rw [h1]
  simp only [Appt.markNotificationRead, Appt.find?_set_read, h,
    Option.map_some', Appt.map_set_read_idem]

/-- Witness for C9 on `notifDB`: row 3 (unread) flips to read and a second
markRead is a no-op; row 4 (already read) does not error and stays read. -/
theorem claim_C9_witness :
    ((Appt.markNotificationRead Appt.notifDB 3).2 =
        .ok ⟨3, "u1", "T", "M", none, true, 0⟩ ∧
      (Appt.markNotificationRead Appt.notifDB 3).1.notifications =
        Appt.notifDB.notifications.map (fun m =>
          if m.id == 3 then { m with isRead := true } else m) ∧
      Appt.markNotificationRead (Appt.markNotificationRead Appt.notifDB 3).1 3 =
        ((Appt.markNotificationRead Appt.notifDB 3).1,
          .ok ⟨3, "u1", "T", "M", none, true, 0⟩)) ∧
    ((Appt.markNotificationRead Appt.notifDB 4).2 =
        .ok ⟨4, "u1", "T2", "M2", none, true, 5⟩ ∧
      (Appt.markNotificationRead Appt.notifDB 4).1.notifications =
        Appt.notifDB.notifications.map (fun m =>
          if m.id == 4 then { m with isRead := true } else m) ∧
      Appt.markNotificationRead (Appt.markNotificationRead Appt.notifDB 4).1 4 =
        ((Appt.markNotificationRead Appt.notifDB 4).1,
          .ok ⟨4, "u1", "T2", "M2", none, true, 5⟩)) :=
  ⟨claim_C9 Appt.notifDB 3 ⟨3, "u1", "T", "M", none, false, 0⟩ (by decide),
   claim_C9 Appt.notifDB 4 ⟨4, "u1", "T2", "M2", none, true, 5⟩ (by decide)⟩

/-- Claim C3: booking with patient and doctor resolved: if some
non-cancelled appointment already occupies the requested doctor/date/time
slot the request fails with the slot-conflict error and the state (hence
the appointment table) is unchanged; otherwise it succeeds and appends
exactly one new appointment with status `PENDING`. -/
theorem claim_C3 (env : Appt.Env) (db : Appt.DB) (userId : String)
    (body : Appt.BookingInput) (patient : Appt.Patient) (doctor : Appt.Doctor)
    (hpat : db.patients.find? (fun p => p.user_id == some userId) = some patient)
    (hdoc : db.doctors.find? (fun d => d.id == body.doctor_id) = some doctor) :
    (∀ c, db.appointments.find? (Appt.conflictPred body) = some c →
        Appt.createAppointmentService env db userId body =
          (db, .error "This time slot is already booked for the selected doctor")) ∧
    (db.appointments.find? (Appt.conflictPred body) = none →
        (Appt.createAppointmentService env db userId body).2 =
          .ok (Appt.newAppointment db patient body) ∧
        (Appt.createAppointmentService env db userId body).1.appointments =
          db.appointments ++ [Appt.newAppointment db patient body] ∧
        (Appt.newAppointment db patient body).status = Appt.AStatus.PENDING) := by
  constructor
  · intro c hc
    simp only [Appt.createAppointmentService, hpat, hdoc, hc]
  · intro hc
    refine ⟨?_, ?_, rfl⟩
    · simp only [Appt.createAppointmentService, hpat, hdoc, hc]
    · simp only [Appt.createAppointmentService, hpat, hdoc, hc]
      cases hdu : doctor.user_id with
      | none =>
        split
        · rw [Appt.notifyEach_appointments]
          rw [Appt.createNotification_fst_appointments]
        · rw [Appt.createNotification_fst_appointments]
      | some du =>
        split
        · rw [Appt.notifyEach_appointments]
          rw [Appt.createNotification_fst_appointments,
            Appt.createNotification_fst_appointments]
        · rw [Appt.createNotification_fst_appointments,
            Appt.createNotification_fst_appointments]

/-- Witness for C3 on `cancelDB`: booking the occupied 10:00 slot of
doctor `doc1` is rejected, booking the free 11:00 slot succeeds with a
`PENDING` appointment. -/
theorem claim_C3_witness :
    (Appt.createAppointmentService Appt.cancelEnv Appt.cancelDB "patU"
        ⟨"doc1", 86400000, "10:00", "checkup", none⟩ =
      (Appt.cancelDB, .error "This time slot is already booked for the selected doctor")) ∧
    ((Appt.createAppointmentService Appt.cancelEnv Appt.cancelDB "patU"
        ⟨"doc1", 86400000, "11:00", "checkup", none⟩).2 =
      .ok (Appt.newAppointment Appt.cancelDB ⟨"patient1", some "patU", "Alice", "Brown"⟩
        ⟨"doc1", 86400000, "11:00", "checkup", none⟩) ∧
      (Appt.createAppointmentService Appt.cancelEnv Appt.cancelDB "patU"
        ⟨"doc1", 86400000, "11:00", "checkup", none⟩).1.appointments =
        Appt.cancelDB.appointments ++
          [Appt.newAppointment Appt.cancelDB ⟨"patient1", some "patU", "Alice", "Brown"⟩
            ⟨"doc1", 86400000, "11:00", "checkup", none⟩] ∧
      (Appt.newAppointment Appt.cancelDB ⟨"patient1", some "patU", "Alice", "Brown"⟩
        ⟨"doc1", 86400000, "11:00", "checkup", none⟩).status = Appt.AStatus.PENDING) :=
  ⟨(claim_C3 Appt.cancelEnv Appt.cancelDB "patU"
      ⟨"doc1", 86400000, "10:00", "checkup", none⟩
      ⟨"patient1", some "patU", "Alice", "Brown"⟩ ⟨"doc1", some "docU", "Smith"⟩
      (by decide) (by decide)).1
      ⟨42, "patient1", "doc1", 86400000, "10:00", "checkup", none,
        Appt.AStatus.SCHEDULED, none⟩ (by decide),
   (claim_C3 Appt.cancelEnv Appt.cancelDB "patU"
      ⟨"doc1", 86400000, "11:00", "checkup", none⟩
      ⟨"patient1", some "patU", "Alice", "Brown"⟩ ⟨"doc1", some "docU", "Smith"⟩
      (by decide) (by decide)).2 (by decide)⟩

/-- Claim C6: a patient-initiated transition to `CANCELLED` from any
status other than `PENDING` fails with the invalid-transition error and
leaves the state (hence the appointment's status) unchanged; from
`PENDING` it succeeds and returns the appointment with status
`CANCELLED`. -/
theorem claim_C6 (env : Appt.Env) (db : Appt.DB) (userId : String)
    (aid : Nat) (reason : Option String) (patient : Appt.Patient)
    (appointment : Appt.Appointment)
    (hpat : db.patients.find? (fun p => p.user_id == some userId) = some patient)
    (happt : db.appointments.find? (fun a =>
        a.id == aid && a.patient_id == patient.id) = some appointment) :
    (appointment.status ≠ Appt.AStatus.PENDING →
        Appt.updateAppointmentStatusService env db userId aid
            Appt.AStatus.CANCELLED reason =
          (db, .error "Only pending appointments can be cancelled")) ∧
    (appointment.status = Appt.AStatus.PENDING →
        (Appt.updateAppointmentStatusService env db userId aid
            Appt.AStatus.CANCELLED reason).2 =
          .ok { appointment with
                status := Appt.AStatus.CANCELLED
                reason := Appt.updReason reason appointment.reason }) := by
  constructor
  · intro hne
    simp only [Appt.updateAppointmentStatusService, hpat, happt]
    rw [if_pos (by simp [hne])]
  · intro hp
    simp only [Appt.updateAppointmentStatusService, hpat, happt]
    rw [if_neg (by simp [hp])]
    cases hd : db.doctors.find? (fun d => d.id == appointment.doctor_id) with
    | none => simp [hd]
    | some doctor =>
      cases hdu : doctor.user_id with
      | none => simp [hd, hdu]
      | some du => simp [hd, hdu]

/-- Witness for C6 on appointment 42: cancelling it while `SCHEDULED`
fails with the invalid-transition error; cancelling it while `PENDING`
succeeds. -/
theorem claim_C6_witness :
    (Appt.updateAppointmentStatusService Appt.cancelEnv Appt.cancelDB "patU" 42
        Appt.AStatus.CANCELLED (some "conflict") =
      (Appt.cancelDB, .error "Only pending appointments can be cancelled")) ∧
    ((Appt.updateAppointmentStatusService Appt.cancelEnv Appt.cancelDBPending
        "patU" 42 Appt.AStatus.CANCELLED (some "conflict")).2 =
      .ok ⟨42, "patient1", "doc1", 86400000, "10:00", "checkup", none,
            Appt.AStatus.CANCELLED, some "conflict"⟩) := by
  constructor
  · exact (claim_C6 Appt.cancelEnv Appt.cancelDB "patU" 42 (some "conflict")
      ⟨"patient1", some "patU", "Alice", "Brown"⟩
      ⟨42, "patient1", "doc1", 86400000, "10:00", "checkup", none,
        Appt.AStatus.SCHEDULED, none⟩ (by decide) (by decide)).1 (by decide)
  · exact (claim_C6 Appt.cancelEnv Appt.cancelDBPending "patU" 42 (some "conflict")
      ⟨"patient1", some "patU", "Alice", "Brown"⟩
      ⟨42, "patient1", "doc1", 86400000, "10:00", "checkup", none,
        Appt.AStatus.PENDING, none⟩ (by decide) (by decide)).2 (by decide)

/-- Counterexample to claim C5: on `cancelDB` (one admin, appointment 42
one day away) the doctor cancels with reason "emergency"; the persisted
order shows the admin urgent alert is created BEFORE the patient's
cancellation notification, so the primary-party notification is not
emitted first on this path. -/
theorem claim_C5_counterexample :
    Appt.afterDoctorCancel.notifications.map (fun n => n.title) =
      ["🚨 Doctor Cancelled Appointment", "❌ Appointment Cancelled"] ∧
    ¬ Appt.afterDoctorCancel.notifications.map (fun n => n.title) =
      ["❌ Appointment Cancelled", "🚨 Doctor Cancelled Appointment"] := by
  decide

/-- Claim C5 (amended): notification emission order is deterministic on
both cancellation paths, but the primary-party-first rule holds only for
the patient-initiated path (doctor notification, then conditional admin
fan-out); on the doctor-initiated path the conditional admin urgent
alerts are persisted before the patient's cancellation notification. -/
theorem claim_C5_amended :
    (∀ (env : Appt.Env) (db : Appt.DB) (userId : String) (aid : Nat)
        (reason : Option String) (doctor : Appt.Doctor)
        (appointment : Appt.Appointment) (patient : Appt.Patient) (pu : String),
      db.doctors.find? (fun d => d.user_id == some userId) = some doctor →
      db.appointments.find? (fun a =>
          a.id == aid && a.doctor_id == doctor.id) = some appointment →
      db.appointments.find? (fun a => a.id == aid) = some appointment →
      db.patients.find? (fun p => p.id == appointment.patient_id) = some patient →
      patient.user_id = some pu →
      Appt.contentsOf (Appt.updateDoctorAppointmentStatus env db userId aid
          "CANCELLED" reason).1 =
        Appt.contentsOf db ++
          (if Appt.daysDiffCeil env.nowMs appointment.appointment_date ≤ 2 then
            (Appt.admins db).map (fun u =>
              (u.id, "🚨 Doctor Cancelled Appointment",
                Appt.doctorCancelAdminMsg doctor appointment patient reason,
                some "/admin/appointments"))
           else []) ++
          [(pu, "❌ Appointment Cancelled",
            Appt.doctorCancelPatientMsg doctor reason, some "/appointments")]) ∧
    (∀ (env : Appt.Env) (db : Appt.DB) (userId : String) (aid : Nat)
        (reason : Option String) (patient : Appt.Patient)
        (appointment : Appt.Appointment) (doctor : Appt.Doctor) (du : String),
      db.patients.find? (fun p => p.user_id == some userId) = some patient →
      db.appointments.find? (fun a =>
          a.id == aid && a.patient_id == patient.id) = some appointment →
      appointment.status = Appt.AStatus.PENDING →
      db.doctors.find? (fun d => d.id == appointment.doctor_id) = some doctor →
      doctor.user_id = some du →
      Appt.contentsOf (Appt.updateAppointmentStatusService env db userId aid
          Appt.AStatus.CANCELLED reason).1 =
        Appt.contentsOf db ++
          [(du, "🚫 Appointment Cancelled by Patient",
            Appt.patientCancelDoctorMsg patient appointment reason,
            some "/doctor/appointments")] ++
          (if Appt.daysDiffCeil env.nowMs appointment.appointment_date ≤ 1 then
            (Appt.admins db).map (fun u =>
              (u.id, "⚠️ Urgent: Same-Day Appointment Cancellation",
                Appt.patientCancelAdminMsg patient doctor appointment,
                some "/admin/appointments"))
           else [])) := by
  constructor
  · intro env db userId aid reason doctor appointment patient pu
      hdoc happt hfirst hpat hpu
    exact (Appt.updateDoctorCancel_spec env db userId aid reason doctor
      appointment patient pu hdoc happt hfirst hpat hpu).2
  · intro env db userId aid reason patient appointment doctor du
      hpat happt hpend hdoc hdu
    exact (Appt.updatePatientCancel_spec env db userId aid reason patient
      appointment doctor du hpat happt hpend hdoc hdu).2

/-- Witness for the amended C5: both emission-order equations instantiated
on the concrete cancellation scenarios. -/
theorem claim_C5_amended_witness :
    (Appt.contentsOf (Appt.updateDoctorAppointmentStatus Appt.cancelEnv
        Appt.cancelDB "docU" 42 "CANCELLED" (some "emergency")).1 =
      Appt.contentsOf Appt.cancelDB ++
        (if Appt.daysDiffCeil Appt.cancelEnv.nowMs
            (⟨42, "patient1", "doc1", 86400000, "10:00", "checkup", none,
              Appt.AStatus.SCHEDULED, none⟩ : Appt.Appointment).appointment_date ≤ 2 then
          (Appt.admins Appt.cancelDB).map (fun u =>
            (u.id, "🚨 Doctor Cancelled Appointment",
              Appt.doctorCancelAdminMsg ⟨"doc1", some "docU", "Smith"⟩
                ⟨42, "patient1", "doc1", 86400000, "10:00", "checkup", none,
                  Appt.AStatus.SCHEDULED, none⟩
                ⟨"patient1", some "patU", "Alice", "Brown"⟩ (some "emergency"),
              some "/admin/appointments"))
         else []) ++
        [("patU", "❌ Appointment Cancelled",
          Appt.doctorCancelPatientMsg ⟨"doc1", some "docU", "Smith"⟩
            (some "emergency"), some "/appointments")]) ∧
    (Appt.contentsOf (Appt.updateAppointmentStatusService Appt.cancelEnv
        Appt.cancelDBPending "patU" 42 Appt.AStatus.CANCELLED (some "conflict")).1 =
      Appt.contentsOf Appt.cancelDBPending ++
        [("docU", "🚫 Appointment Cancelled by Patient",
          Appt.patientCancelDoctorMsg ⟨"patient1", some "patU", "Alice", "Brown"⟩
            ⟨42, "patient1", "doc1", 86400000, "10:00", "checkup", none,
              Appt.AStatus.PENDING, none⟩ (some "conflict"),
          some "/doctor/appointments")] ++
        (if Appt.daysDiffCeil Appt.cancelEnv.nowMs
            (⟨42, "patient1", "doc1", 86400000, "10:00", "checkup", none,
              Appt.AStatus.PENDING, none⟩ : Appt.Appointment).appointment_date ≤ 1 then
          (Appt.admins Appt.cancelDBPending).map (fun u =>
            (u.id, "⚠️ Urgent: Same-Day Appointment Cancellation",
              Appt.patientCancelAdminMsg ⟨"patient1", some "patU", "Alice", "Brown"⟩
                ⟨"doc1", some "docU", "Smith"⟩
                ⟨42, "patient1", "doc1", 86400000, "10:00", "checkup", none,
                  Appt.AStatus.PENDING, none⟩,
              some "/admin/appointments"))
         else [])) :=
  ⟨claim_C5_amended.1 Appt.cancelEnv Appt.cancelDB "docU" 42 (some "emergency")
      ⟨"doc1", some "docU", "Smith"⟩
      ⟨42, "patient1", "doc1", 86400000, "10:00", "checkup", none,
        Appt.AStatus.SCHEDULED, none⟩
      ⟨"patient1", some "patU", "Alice", "Brown"⟩ "patU"
      (by decide) (by decide) (by decide) (by decide) (by decide),
   claim_C5_amended.2 Appt.cancelEnv Appt.cancelDBPending "patU" 42
      (some "conflict") ⟨"patient1", some "patU", "Alice", "Brown"⟩
      ⟨42, "patient1", "doc1", 86400000, "10:00", "checkup", none,
        Appt.AStatus.PENDING, none⟩
      ⟨"doc1", some "docU", "Smith"⟩ "docU"
      (by decide) (by decide) (by decide) (by decide) (by decide)⟩

/-- Claim C7: on a doctor-initiated cancellation the patient receives the
cancellation message (carrying the reason when present — the message ends
with the reason text), and every admin receives the urgent alert exactly
when the appointment date is at most 2 days after "now"
(`daysDiffCeil ≤ 2 ↔ date − now ≤ 2·86400000`); on a patient-initiated
cancellation the doctor receives the cancellation message and every admin
receives the urgent alert exactly when the appointment date is at most 1
day after "now". -/
theorem claim_C7 :
    (∀ (env : Appt.Env) (db : Appt.DB) (userId : String) (aid : Nat)
        (reason : Option String) (doctor : Appt.Doctor)
        (appointment : Appt.Appointment) (patient : Appt.Patient) (pu : String),
      db.doctors.find? (fun d => d.user_id == some userId) = some doctor →
      db.appointments.find? (fun a =>
          a.id == aid && a.doctor_id == doctor.id) = some appointment →
      db.appointments.find? (fun a => a.id == aid) = some appointment →
      db.patients.find? (fun p => p.id == appointment.patient_id) = some patient →
      patient.user_id = some pu →
      Appt.contentsOf (Appt.updateDoctorAppointmentStatus env db userId aid
          "CANCELLED" reason).1 =
        Appt.contentsOf db ++
          (if Appt.daysDiffCeil env.nowMs appointment.appointment_date ≤ 2 then
            (Appt.admins db).map (fun u =>
              (u.id, "🚨 Doctor Cancelled Appointment",
                Appt.doctorCancelAdminMsg doctor appointment patient reason,
                some "/admin/appointments"))
           else []) ++
          [(pu, "❌ Appointment Cancelled",
            Appt.doctorCancelPatientMsg doctor reason, some "/appointments")]) ∧
    (∀ (doctor : Appt.Doctor) (re : String), ∃ pre,
      Appt.doctorCancelPatientMsg doctor (some re) = pre ++ ("Reason: " ++ re)) ∧
    (∀ nowMs date : Int,
      Appt.daysDiffCeil nowMs date ≤ 2 ↔ date - nowMs ≤ 2 * 86400000) ∧
    (∀ (env : Appt.Env) (db : Appt.DB) (userId : String) (aid : Nat)
        (reason : Option String) (patient : Appt.Patient)
        (appointment : Appt.Appointment) (doctor : Appt.Doctor) (du : String),
      db.patients.find? (fun p => p.user_id == some userId) = some patient →
      db.appointments.find? (fun a =>
          a.id == aid && a.patient_id == patient.id) = some appointment →
      appointment.status = Appt.AStatus.PENDING →
      db.doctors.find? (fun d => d.id == appointment.doctor_id) = some doctor →
      doctor.user_id = some du →
      Appt.contentsOf (Appt.updateAppointmentStatusService env db userId aid
          Appt.AStatus.CANCELLED reason).1 =
        Appt.contentsOf db ++
          [(du, "🚫 Appointment Cancelled by Patient",
            Appt.patientCancelDoctorMsg patient appointment reason,
            some "/doctor/appointments")] ++
          (if Appt.daysDiffCeil env.nowMs appointment.appointment_date ≤ 1 then
            (Appt.admins db).map (fun u =>
              (u.id, "⚠️ Urgent: Same-Day Appointment Cancellation",
                Appt.patientCancelAdminMsg patient doctor appointment,
                some "/admin/appointments"))
           else [])) ∧
    (∀ nowMs date : Int,
      Appt.daysDiffCeil nowMs date ≤ 1 ↔ date - nowMs ≤ 1 * 86400000) := by
  refine ⟨?_, ?_, ?_, ?_, ?_⟩
  · intro env db userId aid reason doctor appointment patient pu
      hdoc happt hfirst hpat hpu
    exact (Appt.updateDoctorCancel_spec env db userId aid reason doctor
      appointment patient pu hdoc happt hfirst hpat hpu).2
  · intro doctor re
    exact ⟨"Unfortunately, your appointment with Dr. " ++ doctor.name ++
      " has been cancelled. ", rfl⟩
  · intro nowMs date
    simpa using Appt.daysDiffCeil_le_iff nowMs date 2
  · intro env db userId aid reason patient appointment doctor du
      hpat happt hpend hdoc hdu
    exact (Appt.updatePatientCancel_spec env db userId aid reason patient
      appointment doctor du hpat happt hpend hdoc hdu).2
  · intro nowMs date
    simpa using Appt.daysDiffCeil_le_iff nowMs date 1

/-- Witness for C7: the doctor-cancel scenario on `cancelDB` (appointment
one day away, reason "emergency") and the patient-cancel scenario on
`cancelDBPending`, with the reason-inclusion and day-window facts at
concrete values. -/
theorem claim_C7_witness :
    (Appt.contentsOf (Appt.updateDoctorAppointmentStatus Appt.cancelEnv
        Appt.cancelDB "docU" 42 "CANCELLED" (some "emergency")).1 =
      Appt.contentsOf Appt.cancelDB ++
        (if Appt.daysDiffCeil Appt.cancelEnv.nowMs
            (⟨42, "patient1", "doc1", 86400000, "10:00", "checkup", none,
              Appt.AStatus.SCHEDULED, none⟩ : Appt.Appointment).appointment_date ≤ 2 then
          (Appt.admins Appt.cancelDB).map (fun u =>
            (u.id, "🚨 Doctor Cancelled Appointment",
              Appt.doctorCancelAdminMsg ⟨"doc1", some "docU", "Smith"⟩
                ⟨42, "patient1", "doc1", 86400000, "10:00", "checkup", none,
                  Appt.AStatus.SCHEDULED, none⟩
                ⟨"patient1", some "patU", "Alice", "Brown"⟩ (some "emergency"),
              some "/admin/appointments"))
         else []) ++
        [("patU", "❌ Appointment Cancelled",
          Appt.doctorCancelPatientMsg ⟨"doc1", some "docU", "Smith"⟩
            (some "emergency"), some "/appointments")]) ∧
    (∃ pre, Appt.doctorCancelPatientMsg ⟨"doc1", some "docU", "Smith"⟩
        (some "emergency") = pre ++ ("Reason: " ++ "emergency")) ∧
    (Appt.daysDiffCeil 0 86400000 ≤ 2 ↔ (86400000 : Int) - 0 ≤ 2 * 86400000) ∧
    (Appt.contentsOf (Appt.updateAppointmentStatusService Appt.cancelEnv
        Appt.cancelDBPending "patU" 42 Appt.AStatus.CANCELLED (some "conflict")).1 =
      Appt.contentsOf Appt.cancelDBPending ++
        [("docU", "🚫 Appointment Cancelled by Patient",
          Appt.patientCancelDoctorMsg ⟨"patient1", some "patU", "Alice", "Brown"⟩
            ⟨42, "patient1", "doc1", 86400000, "10:00", "checkup", none,
              Appt.AStatus.PENDING, none⟩ (some "conflict"),
          some "/doctor/appointments")] ++
        (if Appt.daysDiffCeil Appt.cancelEnv.nowMs
            (⟨42, "patient1", "doc1", 86400000, "10:00", "checkup", none,
              Appt.AStatus.PENDING, none⟩ : Appt.Appointment).appointment_date ≤ 1 then
          (Appt.admins Appt.cancelDBPending).map (fun u =>
            (u.id, "⚠️ Urgent: Same-Day Appointment Cancellation",
              Appt.patientCancelAdminMsg ⟨"patient1", some "patU", "Alice", "Brown"⟩
                ⟨"doc1", some "docU", "Smith"⟩
                ⟨42, "patient1", "doc1", 86400000, "10:00", "checkup", none,
                  Appt.AStatus.PENDING, none⟩,
              some "/admin/appointments"))
         else [])) ∧
    (Appt.daysDiffCeil 0 86400000 ≤ 1 ↔ (86400000 : Int) - 0 ≤ 1 * 86400000) :=
  ⟨claim_C7.1 Appt.cancelEnv Appt.cancelDB "docU" 42 (some "emergency")
      ⟨"doc1", some "docU", "Smith"⟩
      ⟨42, "patient1", "doc1", 86400000, "10:00", "checkup", none,
        Appt.AStatus.SCHEDULED, none⟩
      ⟨"patient1", some "patU", "Alice", "Brown"⟩ "patU"
      (by decide) (by decide) (by decide) (by decide) (by decide),
   claim_C7.2.1 ⟨"doc1", some "docU", "Smith"⟩ "emergency",
   claim_C7.2.2.1 0 86400000,
   claim_C7.2.2.2.1 Appt.cancelEnv Appt.cancelDBPending "patU" 42
      (some "conflict") ⟨"patient1", some "patU", "Alice", "Brown"⟩
      ⟨42, "patient1", "doc1", 86400000, "10:00", "checkup", none,
        Appt.AStatus.PENDING, none⟩
      ⟨"doc1", some "docU", "Smith"⟩ "docU"
      (by decide) (by decide) (by decide) (by decide) (by decide),
   claim_C7.2.2.2.2 0 86400000⟩

/-- Claim C10: the disconnect handler removes the registry entry keyed only
by user id, so after `register(u, s1)` then `register(u, s2)` (the second
connection supersedes the first), a later disconnect of the stale socket
`s1` deletes `u`'s entry entirely: `isUserConnected(u)` returns `false`
even though the newer session `s2` was the registered one. -/
theorem claim_C10 (m : List (String × String)) (u s1 s2 : String) :
    Registry.lookupSocket
      (Registry.handleConnection (Registry.handleConnection m u s1) u s2) u
        = some s2 ∧
    Registry.isUserConnected
      (Registry.handleDisconnect
        (Registry.handleConnection (Registry.handleConnection m u s1) u s2)
        u s1) u = false := by
  constructor
  · exact Registry.lookupSocket_setUser _ u s2
  · exact Registry.isUserConnected_deleteUser _ u

end HMS
